import Mathlib

/-!
Verification of the compose-to-Kubernetes translation engine
(`container/k8s/deploy.py`): a shallow embedding of the module's pure
translation functions (`_get_service_ports`, `_expand_env_vars`,
`_add_container_ports`, `_kube_volumes`, the capability table, and the
`Deployment` class's four generator properties) together with theorems
settling the specification's claims about them.

Python dynamic values are modelled by `PyVal`, Python exceptions by
`PyErr` through the `Except` monad, and Python `dict`s (the source uses
insertion-ordered `CommentedMap`s) by ordered association lists.
-/

set_option autoImplicit false

/-- Dynamic Python values as they occur in the parsed container.yml
configuration tree: strings, ints, booleans, `None`, lists and
(insertion-ordered) string-keyed dicts. -/
inductive PyVal where
  | str (s : String)
  | int (n : Int)
  | bool (b : Bool)
  | null
  | list (xs : List PyVal)
  | dict (kvs : List (String × PyVal))
deriving Repr

/-- Python exceptions that the translation code can raise. -/
inductive PyErr where
  | keyError (k : String)
  | typeError
  | valueError
  | attributeError
  | nameError
deriving DecidableEq, Repr

/-- An ordered string-keyed Python dict. -/
abbrev PyDict := List (String × PyVal)

/-- A service (or volume) configuration: one `CommentedMap` of directives. -/
abbrev Svc := PyDict

/-- Lookup in a dict: value of the first entry with the given key. -/
def dictGet : PyDict → String → Option PyVal
  | [], _ => none
  | kv :: rest, k => if kv.1 == k then some kv.2 else dictGet rest k

/-- Python `d[k] = v`: replace the value in place if the key exists
(keeping its position, as Python dicts do), else append a new entry. -/
def dictSet : PyDict → String → PyVal → PyDict
  | [], k, v => [(k, v)]
  | kv :: rest, k, v => if kv.1 == k then (k, v) :: rest else kv :: dictSet rest k v

/-- Python `d.pop(k)`: drop the entry with the given key. -/
def dictRemove (m : PyDict) (k : String) : PyDict :=
  m.filter (fun kv => !(kv.1 == k))

/-- Python truthiness of a value (`if value:`). -/
def pyTruthy : PyVal → Bool
  | .str s => !(s == "")
  | .int n => !(n == 0)
  | .bool b => b
  | .null => false
  | .list xs => !xs.isEmpty
  | .dict kvs => !kvs.isEmpty

/-- Python `v == "s"` for a string literal: strings compare by content,
every other type compares unequal to a string. -/
def pyEqStrB : PyVal → String → Bool
  | .str t, s => t == s
  | _, _ => false

/-- Python `v == n` for an int literal (`True == 1` holds in Python). -/
def pyEqIntB : PyVal → Int → Bool
  | .int m, n => m == n
  | .bool b, n => (if b then (1 : Int) else 0) == n
  | _, _ => false

/-- Split a character list on a separator character, Python
`s.split(c)` style: `n` separators yield `n+1` (possibly empty) groups. -/
def charSplit (c : Char) : List Char → List (List Char)
  | [] => [[]]
  | a :: rest =>
    if a == c then [] :: charSplit c rest
    else
      match charSplit c rest with
      | [] => [[a]]
      | g :: gs => (a :: g) :: gs

/-- Python `s.split(c)` for a one-character separator.  (Implemented over
character lists so that it reduces definitionally; the byte-position
based core `String` functions do not.) -/
def pySplit (s : String) (c : Char) : List String :=
  (charSplit c s.toList).map String.mk

/-- Python `c in s` for a one-character needle. -/
def pyContains (s : String) (c : Char) : Bool :=
  s.toList.contains c

/-- Python `s.upper()` (ASCII, which covers every protocol token). -/
def pyUpper (s : String) : String :=
  String.mk (s.toList.map Char.toUpper)

/-- Python `s.startswith(c)` for a one-character prefix. -/
def pyStartsWith (s : String) (c : Char) : Bool :=
  match s.toList with
  | a :: _ => a == c
  | [] => false

/-- Strip leading and trailing whitespace (Python `s.strip()`). -/
def pyStrip (s : String) : List Char :=
  ((s.toList.dropWhile Char.isWhitespace).reverse.dropWhile Char.isWhitespace).reverse

/-- Python iteration `for x in v`: lists yield elements, strings yield
one-character strings, dicts yield their keys; ints, bools and `None`
are not iterable (`TypeError`). -/
def pyIter : PyVal → Except PyErr (List PyVal)
  | .list xs => .ok xs
  | .str s => .ok (s.toList.map (fun c => .str c.toString))
  | .dict kvs => .ok (kvs.map (fun kv => .str kv.1))
  | _ => .error .typeError

/-- Digits-only parse of a character list (used by `pyToInt`). -/
def digitsVal : List Char → Option Nat
  | [] => none
  | cs => cs.foldl
      (fun acc c => match acc with
        | none => none
        | some n => if c.isDigit then some (n * 10 + (c.toNat - 48)) else none)
      (some 0)

/-- Python `int(s)` on a string: strip whitespace, optional sign, digits. -/
def pyToInt (s : String) : Option Int :=
  match pyStrip s with
  | '+' :: rest => (digitsVal rest).map Int.ofNat
  | '-' :: rest => (digitsVal rest).map (fun n => -(Int.ofNat n))
  | t => (digitsVal t).map Int.ofNat

/-- Python `int(v)`: ints pass through, bools become 0/1, strings are
parsed (`ValueError` on failure), everything else is a `TypeError`. -/
def pyInt : PyVal → Except PyErr Int
  | .int n => .ok n
  | .bool b => .ok (if b then 1 else 0)
  | .str s =>
    match pyToInt s with
    | some n => .ok n
    | none => .error .valueError
  | _ => .error .typeError

/-- Python `"%s" % v` for the values that can reach the port-name
formatting (`int(v)` has already succeeded there, so only strings,
ints and bools occur; the remaining cases are unreachable placeholders). -/
def pyRepr : PyVal → String
  | .str s => s
  | .int n => toString n
  | .bool b => if b then "True" else "False"
  | .null => "None"
  | .list _ => "[...]"
  | .dict _ => "dict"

/-- Error-propagating left fold, mirroring a Python `for` loop whose body
may raise. -/
def foldE {σ α : Type} (f : σ → α → Except PyErr σ) : σ → List α → Except PyErr σ
  | s, [] => .ok s
  | s, a :: as => do
    let s' ← f s a
    foldE f s' as

/-- Error-propagating map, mirroring a Python loop that appends one
result per element. -/
def mapE {α β : Type} (f : α → Except PyErr β) : List α → Except PyErr (List β)
  | [] => .ok []
  | a :: as => do
    let b ← f a
    let bs ← mapE f as
    .ok (b :: bs)

/-! ## Port Resolver (`_get_service_ports`, lines 19-49) -/

/-- One entry of a network resource's `ports` list, as built by
`_append_port`: `dict(port=..., targetPort=..., protocol=..., name=...)`. -/
structure PortDescriptor where
  port : Int
  targetPort : Int
  protocol : String
  name : String
deriving DecidableEq, Repr

/-- Embedding of `_port_in_list`: membership on the `(port, protocol)` pair; the
protocol is compared exactly as stored (case-sensitively). -/
def port_in_list (ports : List PortDescriptor) (port : Int) (protocol : String) : Bool :=
  ports.any (fun p => p.port == port && p.protocol == protocol)

/-- Embedding of `_append_port`: convert the port token with `int(...)` (which can
raise), and append a descriptor with `targetPort` equal to `port` and
name `port-<token>-<PROTOCOL>` unless the `(port, protocol)` pair is
already present. -/
def append_port (ports : List PortDescriptor) (port : PyVal) (protocol : String) :
    Except PyErr (List PortDescriptor) := do
  let n ← pyInt port
  if port_in_list ports n protocol then
    .ok ports
  else
    .ok (ports ++ [{ port := n, targetPort := n, protocol := protocol,
                     name := "port-" ++ pyRepr port ++ "-" ++ pyUpper protocol }])

/-- The tokenizing common to the port loops: a string entry is first split
on `/` into port and protocol (exactly one `/` allowed, otherwise the
unpacking raises `ValueError`), then — only when `colon` is set, i.e. for
`ports` declarations but not `expose` — split on `:` keeping the
container-side part.  Non-string entries pass through with protocol
`TCP`. -/
def portSplit (colon : Bool) : PyVal → Except PyErr (PyVal × String)
  | .str s => do
    let (tok, protocol) ←
      if pyContains s '/' then
        match pySplit s '/' with
        | [a, b] => Except.ok (a, b)
        | _ => Except.error PyErr.valueError
      else Except.ok (s, "TCP")
    let tok ←
      if colon && pyContains tok ':' then
        match pySplit tok ':' with
        | [_, b] => Except.ok b
        | _ => Except.error PyErr.valueError
      else Except.ok tok
    Except.ok (.str tok, protocol)
  | v => .ok (v, "TCP")

/-- One iteration of the `service.get('ports', [])` loop. -/
def portsStep (ps : List PortDescriptor) (entry : PyVal) : Except PyErr (List PortDescriptor) := do
  let (tok, protocol) ← portSplit true entry
  append_port ps tok protocol

/-- One iteration of the `service.get('expose', [])` loop (no `:` form). -/
def exposeStep (ps : List PortDescriptor) (entry : PyVal) : Except PyErr (List PortDescriptor) := do
  let (tok, protocol) ← portSplit false entry
  append_port ps tok protocol

/-- Embedding of `_get_service_ports`: fold the `ports` then the `expose` declarations
of a service into a deduplicated descriptor list. -/
def get_service_ports (service : Svc) : Except PyErr (List PortDescriptor) := do
  let portEntries ← pyIter ((dictGet service "ports").getD (.list []))
  let ps ← foldE portsStep [] portEntries
  let exposeEntries ← pyIter ((dictGet service "expose").getD (.list []))
  foldE exposeStep ps exposeEntries

/-! ## Environment Normalizer (`_expand_env_vars`, lines 52-64) -/

/-- Split a character list at the first occurrence of `c`
(Python `s.split(c, 1)`): returns the prefix and, when `c` occurs,
the remainder after its first occurrence. -/
def splitFirst (c : Char) : List Char → List Char × Option (List Char)
  | [] => ([], none)
  | a :: rest =>
    if a == c then ([], some rest)
    else
      let (pre, suf) := splitFirst c rest
      (a :: pre, suf)

/-- One list-form environment entry: `evar.split('=', 1)` yields either a
bare name (value `None`) or a name/value pair split at the first `=`. -/
def perEntryEnv (s : String) : PyVal :=
  match splitFirst '=' s.toList with
  | (k, none) => .dict [("name", .str (String.mk k)), ("value", .null)]
  | (k, some v) => .dict [("name", .str (String.mk k)), ("value", .str (String.mk v))]

/-- List entries must be strings (`.split` on anything else raises
`AttributeError`). -/
def envEntry : PyVal → Except PyErr PyVal
  | .str s => .ok (perEntryEnv s)
  | _ => .error .attributeError

/-- Embedding of `_expand_env_vars`: a dict maps to `{name, value}` pairs over its keys
in order; a list is normalized entry-wise; any other type yields the
initial empty result list. -/
def expand_env_vars : PyVal → Except PyErr (List PyVal)
  | .dict kvs => .ok (kvs.map (fun kv => .dict [("name", .str kv.1), ("value", kv.2)]))
  | .list evs => mapE envEntry evs
  | _ => .ok []

/-! ## Volume Translator (`_kube_volumes`, lines 83-144) -/

/-- The `DOCKER_VOL_PERMISSIONS` table (line 83). -/
def DOCKER_VOL_PERMISSIONS : List String := ["rw", "ro", "z", "Z"]

/-- A pod-level volume source as built by `_kube_volumes`: either a
`hostPath` dict or an `emptyDir` dict (with `medium=""`). -/
inductive KubeVolume where
  | hostPath (name : String) (path : String)
  | emptyDir (name : String)
deriving DecidableEq, Repr

/-- A `volumeMounts` entry.  `mountPath` is an `Option` because Python
would happily store `None` there for a declaration that parsed with no
destination. -/
structure VolumeMount where
  mountPath : Option String
  name : String
  readOnly : Bool
deriving DecidableEq, Repr

/-- The `(source, destination, permissions)` split of one volume
declaration string (lines 91-104). -/
structure VolParse where
  source : Option String
  destination : Option String
  permissions : Option String
deriving DecidableEq, Repr

/-- Lines 94-104: split on `:`; three parts are source/destination/
permissions; two parts are destination/permissions when the second part
is a permissions token, else source/destination; with no `:` the whole
string is the destination.  Any other number of parts leaves all three
unassigned (`None`). -/
def parse_vol (vol : String) : VolParse :=
  if pyContains vol ':' then
    match pySplit vol ':' with
    | [a, b, c] => { source := some a, destination := some b, permissions := some c }
    | [a, b] =>
      if DOCKER_VOL_PERMISSIONS.contains b then
        { source := none, destination := some a, permissions := some b }
      else
        { source := some a, destination := some b, permissions := none }
    | _ => { source := none, destination := none, permissions := none }
  else { source := none, destination := some vol, permissions := none }

/-- Remove the first `-` anywhere in the name
(`re.sub(r'-', '', name, 1)`, line 110). -/
def removeFirstDash : List Char → List Char
  | [] => []
  | c :: rest => if c == '-' then rest else c :: removeFirstDash rest

/-- Lines 109-110: slugify a destination into a name by replacing every
`/` with `-` and removing the first `-`. -/
def slug_name (d : String) : String :=
  String.mk (removeFirstDash (d.toList.map (fun c => if c == '/' then '-' else c)))

/-- Test `re.match(r'[~./]', source)`: the source starts with `~`, `.` or `/`. -/
def startsHostPath (s : String) : Bool :=
  match s.toList with
  | c :: _ => c == '~' || c == '.' || c == '/'
  | [] => false

/-- One iteration of the `_kube_volumes` loop.  The state carries the
accumulated volumes and mounts plus the current binding of the Python
local variable `name`, which is only (re)assigned when the destination
is truthy (lines 107-110) or in the named-volume branch (line 126) and
therefore leaks across iterations; using it unassigned is a
`NameError`. -/
def kube_volumes_step (st : List KubeVolume × List VolumeMount × Option String)
    (vol : String) : Except PyErr (List KubeVolume × List VolumeMount × Option String) :=
  let vols := st.1
  let mounts := st.2.1
  let p := parse_vol vol
  let nameOpt : Option String :=
    match p.destination with
    | some d => if d == "" then st.2.2 else some (slug_name d)
    | none => st.2.2
  let emptyDirBranch : Except PyErr (List KubeVolume × List VolumeMount × Option String) :=
    match nameOpt with
    | none => .error .nameError
    | some nm =>
      .ok (vols ++ [.emptyDir nm],
           mounts ++ [{ mountPath := p.destination, name := nm,
                        readOnly := p.permissions == some "ro" }],
           nameOpt)
  match p.source with
  | some s =>
    if s == "" then
      -- an empty source string is falsy, so `if source:` falls through to
      -- the emptyDir branch
      emptyDirBranch
    else if pyStartsWith s '$' then
      -- environment-variable-indirected source: `continue`
      .ok (vols, mounts, nameOpt)
    else if startsHostPath s then
      match nameOpt with
      | none => .error .nameError
      | some nm =>
        .ok (vols ++ [.hostPath nm s],
             mounts ++ [{ mountPath := p.destination, name := nm,
                          readOnly := p.permissions == some "ro" }],
             nameOpt)
    else
      -- named volume: `name = source`, `named = True`; neither a volume
      -- nor a mount is appended
      .ok (vols, mounts, some s)
  | none => emptyDirBranch

/-- Embedding of `_kube_volumes`: fold the declarations and return the accumulated
volume sources and mounts. -/
def kube_volumes (docker_volumes : List String) :
    Except PyErr (List KubeVolume × List VolumeMount) := do
  let (v, m, _) ← foldE kube_volumes_step ([], [], none) docker_volumes
  .ok (v, m)

/-! ## Capability Mapper (`DOCKER_TO_KUBE_CAPABILITY_MAPPING`, lines 270-308) -/

/-- The fixed capability table, in source order. -/
def DOCKER_TO_KUBE_CAPABILITY_MAPPING : List (String × String) :=
  [("SETPCAP", "CAP_SETPCAP"),
   ("SYS_MODULE", "CAP_SYS_MODULE"),
   ("SYS_RAWIO", "CAP_SYS_RAWIO"),
   ("SYS_PACCT", "CAP_SYS_PACCT"),
   ("SYS_ADMIN", "CAP_SYS_ADMIN"),
   ("SYS_NICE", "CAP_SYS_NICE"),
   ("SYS_RESOURCE", "CAP_SYS_RESOURCE"),
   ("SYS_TIME", "CAP_SYS_TIME"),
   ("SYS_TTY_CONFIG", "CAP_SYS_TTY_CONFIG"),
   ("MKNOD", "CAP_MKNOD"),
   ("AUDIT_WRITE", "CAP_AUDIT_WRITE"),
   ("AUDIT_CONTROL", "CAP_AUDIT_CONTROL"),
   ("MAC_OVERRIDE", "CAP_MAC_OVERRIDE"),
   ("MAC_ADMIN", "CAP_MAC_ADMIN"),
   ("NET_ADMIN", "CAP_NET_ADMIN"),
   ("SYSLOG", "CAP_SYSLOG"),
   ("CHOWN", "CAP_CHOWN"),
   ("NET_RAW", "CAP_NET_RAW"),
   ("DAC_OVERRIDE", "CAP_DAC_OVERRIDE"),
   ("FOWNER", "CAP_FOWNER"),
   ("DAC_READ_SEARCH", "CAP_DAC_READ_SEARCH"),
   ("FSETID", "CAP_FSETID"),
   ("KILL", "CAP_KILL"),
   ("SETGID", "CAP_SETGID"),
   ("SETUID", "CAP_SETUID"),
   ("LINUX_IMMUTABLE", "CAP_LINUX_IMMUTABLE"),
   ("NET_BIND_SERVICE", "CAP_NET_BIND_SERVICE"),
   ("NET_BROADCAST", "CAP_NET_BROADCAST"),
   ("IPC_LOCK", "CAP_IPC_LOCK"),
   ("IPC_OWNER", "CAP_IPC_OWNER"),
   ("SYS_CHROOT", "CAP_SYS_CHROOT"),
   ("SYS_PTRACE", "CAP_SYS_PTRACE"),
   ("SYS_BOOT", "CAP_SYS_BOOT"),
   ("LEASE", "CAP_LEASE"),
   ("SETFCAP", "CAP_SETFCAP"),
   ("WAKE_ALARM", "CAP_WAKE_ALARM"),
   ("BLOCK_SUSPEND", "CAP_BLOCK_SUSPEND")]

/-- Lookup of a capability name in the fixed table. -/
def capFind (s : String) : Option String :=
  (DOCKER_TO_KUBE_CAPABILITY_MAPPING.find? (fun kv => kv.1 == s)).map (fun kv => kv.2)

/-! ## Service Generator (`Deployment.services`, lines 155-208) -/

/-- The `DEFAULT_API_VERSION` constant (line 146). -/
def DEFAULT_API_VERSION : String := "v1"

/-- A generated network (`Service`) resource: the `CommentedMap` built by
`_create_service`, with its fixed keys lifted to fields.  `type` is the
optional `spec.type` escalation. -/
structure ServiceResource where
  apiVersion : String
  kind : String
  name : String
  labels : List (String × String)
  selector : List (String × String)
  ports : List PortDescriptor
  type : Option String
deriving DecidableEq, Repr

/-- The aggregating translator object (`Deployment.__init__`): the
service map, project name and volume map supplied by the loader. -/
structure Deployment where
  svcs : List (String × Svc)
  projectName : String
  vols : List (String × Svc)

/-- Lines 164-166 (also 402-404 use the same pattern through `pod`):
`service.get('k8s', {}).get('state')`.  A non-dict `k8s` value has no
`.get` (`AttributeError`). -/
def getK8sState (service : Svc) : Except PyErr (Option PyVal) :=
  match dictGet service "k8s" with
  | none => .ok none
  | some (.dict kvs) => .ok (dictGet kvs "state")
  | some _ => .error .attributeError

/-- Embedding of `_create_service`: for an effective state of `present` and a
non-empty port list, build the Service resource; the `spec.type` is set
to `LoadBalancer` when some port differs from its targetPort.  An empty
template (any other case) is falsy and becomes `none`. -/
def create_service (proj name : String) (service : Svc) :
    Except PyErr (Option ServiceResource) := do
  let stateOpt ← getK8sState service
  let state : PyVal :=
    match stateOpt with
    | some v => if pyTruthy v then v else .str "present"
    | none => .str "present"
  if pyEqStrB state "present" then
    let ports ← get_service_ports service
    if ports.isEmpty then
      .ok none
    else
      .ok (some { apiVersion := DEFAULT_API_VERSION, kind := "Service", name := name,
                  labels := [("app", proj), ("service", name)],
                  selector := [("app", proj), ("service", name)],
                  ports := ports,
                  type := if ports.any (fun p => !(p.port == p.targetPort)) then
                            some "LoadBalancer"
                          else none })
  else .ok none

/-- Python `':' in v`: substring test on strings, membership on lists
(comparing elements to the string `":"`) and on dict keys; `TypeError`
otherwise. -/
def pyInStr (c : Char) : PyVal → Except PyErr Bool
  | .str s => .ok (s.toList.contains c)
  | .list xs => .ok (xs.any (fun e => pyEqStrB e (String.mk [c])))
  | .dict kvs => .ok (kvs.any (fun kv => kv.1 == String.mk [c]))
  | _ => .error .typeError

/-- Lookup `self._services.get(name)`. -/
def lookupSvc (svcs : List (String × Svc)) (name : String) : Option Svc :=
  (svcs.find? (fun nv => nv.1 == name)).map (fun nv => nv.2)

/-- Lines 198-207: the `links` handling inside the `services` loop; for
each `service:alias` link whose referenced service exists (and is
truthy), emit an extra resource under the alias name built from the
referenced service's config. -/
def linksStep (d : Deployment) (ts : List ServiceResource) (link : PyVal) :
    Except PyErr (List ServiceResource) := do
  let hasColon ← pyInStr ':' link
  if hasColon then
    match link with
    | .str s =>
      match pySplit s ':' with
      | [service_name, aliasName] =>
        match lookupSvc d.svcs service_name with
        | some cfg =>
          if cfg.isEmpty then .ok ts
          else do
            let t ← create_service d.projectName aliasName cfg
            .ok (match t with | some r => ts ++ [r] | none => ts)
        | none => .ok ts
      | _ => .error .valueError
    | _ => .error .attributeError
  else .ok ts

/-- One iteration of the `services` loop: the service's own resource
(when truthy) followed by its link aliases. -/
def servicesStep (d : Deployment) (ts : List ServiceResource) (nv : String × Svc) :
    Except PyErr (List ServiceResource) := do
  let t ← create_service d.projectName nv.1 nv.2
  let ts := match t with | some r => ts ++ [r] | none => ts
  match dictGet nv.2 "links" with
  | some lv =>
    if pyTruthy lv then do
      let links ← pyIter lv
      foldE (linksStep d) ts links
    else .ok ts
  | none => .ok ts

/-- The `services` property: one pass over the service map. -/
def Deployment.services (d : Deployment) : Except PyErr (List ServiceResource) :=
  foldE (servicesStep d) [] d.svcs

/-- A `service_tasks` entry (lines 210-221). -/
structure ServiceTask where
  name : String
  state : String
  service_definition : ServiceResource
deriving DecidableEq, Repr

/-- The `service_tasks` property: wrap every service resource in an
idempotent `k8s_v1_service` task with state `present`. -/
def Deployment.service_tasks (d : Deployment) : Except PyErr (List ServiceTask) := do
  let ts ← Deployment.services d
  .ok (ts.map (fun t => { name := "Create service", state := "present",
                          service_definition := t }))

/-! ## Workload Generator (`Deployment.deployments`, lines 223-434) -/

/-- The single-quote, double-quote and backslash characters (spelled via
code points to keep them out of character-literal position). -/
def squoteChar : Char := Char.ofNat 39

/-- The double-quote character. -/
def dquoteChar : Char := Char.ofNat 34

/-- The backslash character. -/
def bslashChar : Char := Char.ofNat 92

/-- The lexer mode of `shlex.split` in POSIX mode: outside any quote,
inside single quotes, or inside double quotes. -/
inductive ShMode where
  | normal
  | single
  | double

/-- Characters `shlex` treats as word separators (its default
`whitespace` attribute is space, tab, carriage return and newline). -/
def shWhitespace (c : Char) : Bool :=
  c == ' ' || c == '\t' || c == '\r' || c == '\n'

/-- Core of `shlex.split(s)` (POSIX mode, comments off): whitespace
separates words; single quotes are fully literal; inside double quotes a
backslash escapes only the double quote and the backslash, and is kept
literally otherwise; outside quotes a backslash escapes any character.
An unterminated quote or a trailing backslash raises `ValueError`. -/
def shlexCore : List Char → ShMode → Option (List Char) → Except PyErr (List String)
  | [], .normal, none => .ok []
  | [], .normal, some w => .ok [String.mk w.reverse]
  | [], .single, _ => .error .valueError
  | [], .double, _ => .error .valueError
  | c :: rest, .normal, acc =>
    if shWhitespace c then
      match acc with
      | none => shlexCore rest .normal none
      | some w => do
        let ws ← shlexCore rest .normal none
        .ok (String.mk w.reverse :: ws)
    else if c == squoteChar then
      shlexCore rest .single (some (acc.getD []))
    else if c == dquoteChar then
      shlexCore rest .double (some (acc.getD []))
    else if c == bslashChar then
      match rest with
      | [] => .error .valueError
      | d :: rest' => shlexCore rest' .normal (some (d :: acc.getD []))
    else
      shlexCore rest .normal (some (c :: acc.getD []))
  | c :: rest, .single, acc =>
    if c == squoteChar then shlexCore rest .normal (some (acc.getD []))
    else shlexCore rest .single (some (c :: acc.getD []))
  | c :: rest, .double, acc =>
    if c == dquoteChar then shlexCore rest .normal (some (acc.getD []))
    else if c == bslashChar then
      match rest with
      | [] => .error .valueError
      | d :: rest' =>
        if d == dquoteChar || d == bslashChar then
          shlexCore rest' .double (some (d :: acc.getD []))
        else
          shlexCore rest' .double (some (d :: bslashChar :: acc.getD []))
    else shlexCore rest .double (some (c :: acc.getD []))

/-- Embedding of `shlex.split(value)` as used for `command` and `entrypoint`. -/
def shlex_split (s : String) : Except PyErr (List String) :=
  shlexCore s.toList .normal none

/-- The `IGNORE_DIRECTIVES` list (lines 223-268).  Note: in the source the entry
after `ipv4_address` is the adjacent string literals
`'ipv6_address' 'labels'`, which Python concatenates into the single
element `ipv6_addresslabels` — so `ipv6_address` itself is NOT in the
list.  Duplicate entries (`labels`, `links`) are kept as in the source;
they do not affect membership. -/
def IGNORE_DIRECTIVES : List String :=
  ["build", "expose", "labels", "links", "cgroup_parent", "dev_options",
   "devices", "depends_on", "dns", "dns_search", "env_file", "user",
   "extends", "extrenal_links", "extra_hosts", "ipv4_address",
   "ipv6_addresslabels", "links", "logging", "log_driver", "lop_opt",
   "net", "network_mode", "networks", "restart", "pid", "security_opt",
   "stop_signal", "ulimits", "cpu_shares", "cpu_quota", "cpuset",
   "domainname", "hostname", "ipc", "mac_address", "mem_limit",
   "memswap_limit", "shm_size", "tmpfs", "options", "volume_driver",
   "volumes_from"]

/-- The container spec under construction: a `CommentedMap`. -/
abbrev Container := PyDict

/-- The container's `securityContext` entry, which must currently hold a
dict (it is initialized to one; a pass-through directive could have
replaced it, in which case item access on it fails). -/
def getSC (c : Container) : Except PyErr PyDict :=
  match dictGet c "securityContext" with
  | some (.dict kvs) => .ok kvs
  | some _ => .error .typeError
  | none => .error (.keyError "securityContext")

/-- Store an updated `securityContext` dict back into the container. -/
def putSC (c : Container) (sc : PyDict) : Container :=
  dictSet c "securityContext" (.dict sc)

/-- Assignment `container['securityContext'][k] = v`. -/
def setSC (c : Container) (k : String) (v : PyVal) : Except PyErr Container := do
  let sc ← getSC c
  .ok (putSC c (dictSet sc k v))

/-- The lazily created capability structure `dict(add=[], drop=[])`. -/
def CAP_INIT : PyVal := .dict [("add", .list []), ("drop", .list [])]

/-- Lines 325-326 / 332-333: create `Capabilities` under the security
context unless it is already present and truthy. -/
def ensure_capabilities (c : Container) : Except PyErr Container := do
  let sc ← getSC c
  match dictGet sc "Capabilities" with
  | some v => if pyTruthy v then .ok c else .ok (putSC c (dictSet sc "Capabilities" CAP_INIT))
  | none => .ok (putSC c (dictSet sc "Capabilities" CAP_INIT))

/-- Lookup `self.DOCKER_TO_KUBE_CAPABILITY_MAPPING[cap]`: an unguarded dict
lookup; a name absent from the table raises `KeyError`, a non-string
(unhashable) key raises `TypeError`, other hashable non-strings are
simply absent. -/
def capToken : PyVal → Except PyErr String
  | .str s =>
    match capFind s with
    | some tok => .ok tok
    | none => .error (.keyError s)
  | .list _ => .error .typeError
  | .dict _ => .error .typeError
  | _ => .error (.keyError "")

/-- Append a mapped token to the `add` or `drop` list of the capability
structure. -/
def addCapToken (c : Container) (listKey : String) (tok : String) : Except PyErr Container := do
  let sc ← getSC c
  match dictGet sc "Capabilities" with
  | some (.dict caps) =>
    match dictGet caps listKey with
    | some (.list xs) =>
      .ok (putSC c (dictSet sc "Capabilities" (.dict (dictSet caps listKey (.list (xs ++ [.str tok]))))))
    | some _ => .error .attributeError
    | none => .error (.keyError listKey)
  | some _ => .error .typeError
  | none => .error (.keyError "Capabilities")

/-- One `cap_add`/`cap_drop` cap: the unguarded table lookup, the
always-true truthiness test on the mapped token, and the append. -/
def capStep (listKey : String) (c : Container) (cap : PyVal) : Except PyErr Container := do
  let tok ← capToken cap
  if tok == "" then .ok c else addCapToken c listKey tok

/-- The whole `cap_add`/`cap_drop` branch (lines 324-337). -/
def cap_branch (c : Container) (listKey : String) (value : PyVal) : Except PyErr Container := do
  let c ← ensure_capabilities c
  let caps ← pyIter value
  foldE (capStep listKey) c caps

/-- One element check of `_port_exists` (lines 69-71): compare the stored
`containerPort` (an int) and `protocol` (already uppercased at append
time) with the candidate, using Python equality. -/
def cpMatch (n : Int) (protocol : String) (p : PyVal) : Except PyErr Bool :=
  match p with
  | .dict kvs =>
    match dictGet kvs "containerPort" with
    | none => .error (.keyError "containerPort")
    | some cv =>
      if pyEqIntB cv n then
        match dictGet kvs "protocol" with
        | none => .error (.keyError "protocol")
        | some pv => .ok (pyEqStrB pv protocol)
      else .ok false
  | _ => .error .typeError

/-- Error-propagating existence test over a list. -/
def anyME {α : Type} (f : α → Except PyErr Bool) : List α → Except PyErr Bool
  | [] => .ok false
  | a :: as => do
    let b ← f a
    if b then .ok true else anyME f as

/-- One entry of `_add_container_ports` (lines 67-81): tokenize like the
`ports` loop (protocol split, host part dropped), then append a
`{containerPort, protocol}` dict with the protocol uppercased unless the
pair already exists — the existence check compares against the RAW
protocol token, while appended entries store the uppercased one. -/
def containerPortStep (ex : List PyVal) (entry : PyVal) : Except PyErr (List PyVal) := do
  let (tok, protocol) ← portSplit true entry
  let n ← pyInt tok
  let dup ← anyME (cpMatch n protocol) ex
  if dup then .ok ex
  else .ok (ex ++ [.dict [("containerPort", .int n), ("protocol", .str (pyUpper protocol))]])

/-- Embedding of `_add_container_ports(ports, existing_ports)`. -/
def add_container_ports (value : PyVal) (existing : List PyVal) : Except PyErr (List PyVal) := do
  let entries ← pyIter value
  foldE containerPortStep existing entries

/-- Statement `if not container.get('ports'): container['ports'] = []` followed by
reading `container['ports']` (which is always a list here, but a
non-list would fail item access). -/
def currentPorts (c : Container) : Except PyErr (List PyVal) :=
  match (match dictGet c "ports" with
    | some v => if pyTruthy v then v else .list []
    | none => .list []) with
  | .list xs => .ok xs
  | _ => .error .typeError

/-- One directive of the `_service_to_container` loop (lines 321-373),
acting on the container under construction and the accumulated pod-level
`volumes` list.  The `volumes` branch calls the module-level
`_kube_volumes(self, docker_volumes)` with a single argument
(line 365), which raises `TypeError: missing positional argument`
before anything is produced. -/
def step_directive (cv : Container × List PyVal) (kv : String × PyVal) :
    Except PyErr (Container × List PyVal) :=
  if IGNORE_DIRECTIVES.contains kv.1 then .ok cv
  else if kv.1 == "cap_add" then do
    let c ← cap_branch cv.1 "add" kv.2
    .ok (c, cv.2)
  else if kv.1 == "cap_drop" then do
    let c ← cap_branch cv.1 "drop" kv.2
    .ok (c, cv.2)
  else if kv.1 == "command" then
    match kv.2 with
    | .str s => do
      let args ← shlex_split s
      .ok (dictSet cv.1 "args" (.list (args.map PyVal.str)), cv.2)
    | v => .ok (dictSet cv.1 "args" v, cv.2)
  else if kv.1 == "container_name" then .ok (dictSet cv.1 "name" kv.2, cv.2)
  else if kv.1 == "entrypoint" then
    match kv.2 with
    | .str s => do
      let args ← shlex_split s
      .ok (dictSet cv.1 "command" (.list (args.map PyVal.str)), cv.2)
    | v => .ok (dictSet cv.1 "command" v, cv.2)
  else if kv.1 == "environment" then do
    let ev ← expand_env_vars kv.2
    .ok (if ev.isEmpty then cv.1 else dictSet cv.1 "env" (.list ev), cv.2)
  else if kv.1 == "ports" || kv.1 == "expose" then do
    let xs ← currentPorts cv.1
    let xs ← add_container_ports kv.2 xs
    .ok (dictSet cv.1 "ports" (.list xs), cv.2)
  else if kv.1 == "privileged" then do
    let c ← setSC cv.1 "privileged" kv.2
    .ok (c, cv.2)
  else if kv.1 == "read_only" then do
    let c ← setSC cv.1 "readOnlyRootFileSystem" kv.2
    .ok (c, cv.2)
  else if kv.1 == "stdin_open" then .ok (dictSet cv.1 "stdin" kv.2, cv.2)
  else if kv.1 == "volumes" then .error .typeError
  else if kv.1 == "working_dir" then .ok (dictSet cv.1 "workingDir" kv.2, cv.2)
  else .ok (dictSet cv.1 kv.1 kv.2, cv.2)

/-- One key of the extension (`k8s`) block (lines 376-387): security
context fields go to the container, `replicas` and `state` to the
pod-scope dict; anything else is silently ignored. -/
def step_k8s (cp : Container × PyDict) (kv : String × PyVal) :
    Except PyErr (Container × PyDict) :=
  if kv.1 == "seLinuxOptions" then do
    let c ← setSC cp.1 "seLinuxOptions" kv.2
    .ok (c, cp.2)
  else if kv.1 == "runAsNonRoot" then do
    let c ← setSC cp.1 "runAsNonRoot" kv.2
    .ok (c, cp.2)
  else if kv.1 == "runAsUser" then do
    let c ← setSC cp.1 "runAsUser" kv.2
    .ok (c, cp.2)
  else if kv.1 == "replicas" then .ok (cp.1, dictSet cp.2 "replicas" kv.2)
  else if kv.1 == "state" then .ok (cp.1, dictSet cp.2 "state" kv.2)
  else .ok cp

/-- The `Translate options` block (lines 375-387), applied to the value
of `service.get('k8s')`: when present and truthy it must be a dict
(anything else has no `.items()`), and its keys are folded by
`step_k8s`. -/
def k8sPhase (kopt : Option PyVal) (c : Container) (volumes : List PyVal) :
    Except PyErr (Container × List PyVal × PyDict) :=
  match kopt with
  | some v =>
    if pyTruthy v then
      match v with
      | .dict kvs => do
        let (c2, pod) ← foldE step_k8s (c, []) kvs
        .ok (c2, volumes, pod)
      | _ => .error .attributeError
    else .ok (c, volumes, [])
  | none => .ok (c, volumes, [])

/-- Embedding of `_service_to_container` (lines 313-389): initialize the container
map, fold the service directives, then fold the `k8s` extension block. -/
def service_to_container (name : String) (service : Svc) :
    Except PyErr (Container × List PyVal × PyDict) := do
  let (c, volumes) ← foldE step_directive
    ([("name", .str name), ("securityContext", .dict []), ("state", .str "present")], [])
    service
  k8sPhase (dictGet service "k8s") c volumes

/-- A generated workload (`Deployment`) resource with its fixed keys
lifted to fields.  `ns` is `metadata.namespace`; `templateReplicas` and
`strategyType` are the constants written at
`spec.template.replicas` / `spec.template.strategy.type` (lines
421-422, including the `RollingUpate` typo); `volumes` is
`spec.template.spec.volumes` (written only when non-empty); `replicas`
is the optional workload-level `spec.replicas`. -/
structure DeploymentResource where
  apiVersion : String
  kind : String
  name : String
  labels : List (String × String)
  ns : String
  containers : List Container
  templateReplicas : Int
  strategyType : String
  volumes : List PyVal
  replicas : Option PyVal
deriving Repr

/-- Lines 402-404: `state = 'present'; if pod.get('state'): state =
pod.pop('state')` — the effective state and the pod dict after the pop. -/
def popState (pod : PyDict) : PyVal × PyDict :=
  match dictGet pod "state" with
  | some v => if pyTruthy v then (v, dictRemove pod "state") else (.str "present", pod)
  | none => (.str "present", pod)

/-- One iteration of the `deployments` loop (lines 393-433): build the
container, pop the effective state from the pod-scope dict, and when it
is `present` emit the workload resource. -/
def deploymentsStep (d : Deployment) (ts : List DeploymentResource) (nv : String × Svc) :
    Except PyErr (List DeploymentResource) := do
  let cvp ← service_to_container nv.1 nv.2
  if pyEqStrB (popState cvp.2.2).1 "present" then
    .ok (ts ++ [{ apiVersion := "extensions/v1beta1", kind := "Deployment", name := nv.1,
                  labels := [("app", d.projectName), ("service", nv.1)],
                  ns := d.projectName, containers := [cvp.1],
                  templateReplicas := 1, strategyType := "RollingUpate",
                  volumes := cvp.2.1,
                  replicas := dictGet (popState cvp.2.2).2 "replicas" }])
  else .ok ts

/-- The `deployments` property. -/
def Deployment.deployments (d : Deployment) : Except PyErr (List DeploymentResource) :=
  foldE (deploymentsStep d) [] d.svcs

/-- A `deployment_tasks` entry (lines 436-448). -/
structure DeploymentTask where
  name : String
  state : String
  service_definition : DeploymentResource
deriving Repr

/-- The `deployment_tasks` property. -/
def Deployment.deployment_tasks (d : Deployment) : Except PyErr (List DeploymentTask) := do
  let ts ← Deployment.deployments d
  .ok (ts.map (fun t => { name := "Create deployment", state := "present",
                          service_definition := t }))

/-! ## Storage Claim Generator (`Deployment.persistent_volume_claims`, lines 450-493) -/

/-- A persistent-volume-claim resource.  No constructor of this type is
ever produced by the generator: the `persistent` branch of
`_volume_to_pvc` crashes before completing a template (see
`volume_to_pvc`). -/
structure PvcResource where
  name : String
deriving DecidableEq, Repr

/-- Embedding of `_volume_to_pvc` (lines 452-484).  For `type == 'persistent'`
the code builds `template['spec'] = CommentedMap()` and then executes
`template['spec']['requested']['storage'] = '1Gi'` (line 462): the
subscript chain first LOOKS UP `'requested'` in the fresh empty spec
map, which raises `KeyError('requested')` unconditionally — the rest of
the branch (access modes, the explicit `storage` override, storage
class, selector) is unreachable.  For `type == 'volatile'` and for any
other or missing type the template stays `None`.  A non-dict claim has
no `.get` (`AttributeError`). -/
def volume_to_pvc (claim : PyVal) : Except PyErr (Option PvcResource) :=
  match claim with
  | .dict kvs =>
    if pyEqStrB ((dictGet kvs "type").getD .null) "persistent" then
      .error (.keyError "requested")
    else
      .ok none
  | _ => .error .attributeError

/-- One volume of the `persistent_volume_claims` loop (lines 487-491):
when the volume config carries a `k8s` key, the result of
`_volume_to_pvc` is appended UNCONDITIONALLY — including the `None`
returned for volatile (and unrecognized) types. -/
def pvcStep (ts : List (Option PvcResource)) (nv : String × Svc) :
    Except PyErr (List (Option PvcResource)) :=
  match dictGet nv.2 "k8s" with
  | some kv => do
    let v ← volume_to_pvc kv
    .ok (ts ++ [v])
  | none => .ok ts

/-- The `persistent_volume_claims` property. -/
def Deployment.persistent_volume_claims (d : Deployment) :
    Except PyErr (List (Option PvcResource)) :=
  foldE pvcStep [] d.vols

/-! ## General lemmas about the embedding's building blocks -/

/-- Bind on a successful `Except` computation. -/
@[simp] theorem exBind_ok {α β : Type} (a : α) (g : α → Except PyErr β) :
    (Except.ok a >>= g) = g a := rfl

/-- Bind on a failed `Except` computation. -/
@[simp] theorem exBind_error {α β : Type} (e : PyErr) (g : α → Except PyErr β) :
    ((Except.error e : Except PyErr α) >>= g) = Except.error e := rfl

/-- Inversion of a successful bind. -/
theorem exBind_ok_inv {α β : Type} {x : Except PyErr α} {g : α → Except PyErr β} {b : β}
    (h : (x >>= g) = .ok b) : ∃ a, x = .ok a ∧ g a = .ok b := by
  cases x with
  | error e => simp at h
  | ok a => exact ⟨a, rfl, h⟩

/-- Unfolding lemma for `foldE` on a cons cell. -/
theorem foldE_cons {σ α : Type} (f : σ → α → Except PyErr σ) (s : σ) (a : α) (as : List α) :
    foldE f s (a :: as) = (f s a >>= fun s' => foldE f s' as) := rfl

/-- If some element of the list makes the step fail from every state,
the whole fold fails. -/
theorem foldE_mem_error {σ α : Type} {f : σ → α → Except PyErr σ} {as : List α} {a : α}
    (ha : a ∈ as) (hbad : ∀ s, ∃ e, f s a = .error e) :
    ∀ init, ∃ e, foldE f init as = .error e := by
  induction as with
  | nil => cases ha
  | cons b bs ih =>
    intro init
    rcases List.mem_cons.mp ha with hab | hmem
    · subst hab
      obtain ⟨e, he⟩ := hbad init
      exact ⟨e, by rw [foldE_cons, he]; rfl⟩
    · cases hfb : f init b with
      | error e => exact ⟨e, by rw [foldE_cons, hfb]; rfl⟩
      | ok s' =>
        obtain ⟨e, he⟩ := ih hmem s'
        exact ⟨e, by rw [foldE_cons, hfb, exBind_ok, he]⟩

/-- A fold that succeeds preserves any invariant preserved by its step. -/
theorem foldE_preserve {σ α : Type} {f : σ → α → Except PyErr σ} {P : σ → Prop}
    (hstep : ∀ s a s', P s → f s a = .ok s' → P s') :
    ∀ (as : List α) (s s' : σ), P s → foldE f s as = .ok s' → P s' := by
  intro as
  induction as with
  | nil =>
    intro s s' hp h
    cases h
    exact hp
  | cons a as ih =>
    intro s s' hp h
    rw [foldE_cons] at h
    obtain ⟨s1, h1, h2⟩ := exBind_ok_inv h
    exact ih s1 s' (hstep s a s1 hp h1) h2

/-- A successful lookup means the pair is in the dict. -/
theorem dictGet_mem {m : PyDict} {k : String} {v : PyVal}
    (h : dictGet m k = some v) : (k, v) ∈ m := by
  induction m with
  | nil => simp [dictGet] at h
  | cons kv rest ih =>
    rw [dictGet] at h
    by_cases hk : kv.1 == k
    · rw [if_pos hk] at h
      injection h with h2
      have hk1 : kv.1 = k := by simpa using hk
      rw [← hk1, ← h2]
      exact List.mem_cons_self _ _
    · rw [if_neg hk] at h
      exact List.mem_cons_of_mem _ (ih h)

/-- A failed lookup means no entry has the key. -/
theorem dictGet_none {m : PyDict} {k : String}
    (h : dictGet m k = none) : ∀ kv ∈ m, kv.1 ≠ k := by
  induction m with
  | nil => intro kv hkv; cases hkv
  | cons kv0 rest ih =>
    rw [dictGet] at h
    intro kv hkv
    by_cases hk : kv0.1 == k
    · rw [if_pos hk] at h
      cases h
    · rw [if_neg hk] at h
      rcases List.mem_cons.mp hkv with h0 | hm
      · subst h0
        simpa using hk
      · exact ih h kv hm

/-- Setting one key leaves every other key's lookup unchanged. -/
theorem dictGet_dictSet_ne {m : PyDict} {k k' : String} {v : PyVal}
    (h : k' ≠ k) : dictGet (dictSet m k v) k' = dictGet m k' := by
  have hb : (k == k') = false := beq_eq_false_iff_ne.mpr (fun hh => h hh.symm)
  induction m with
  | nil => simp [dictSet, dictGet, hb]
  | cons kv rest ih =>
    by_cases hk : kv.1 == k
    · have hkv1 : kv.1 = k := by simpa using hk
      simp [dictSet, dictGet, hk, hkv1, hb]
    · simp [dictSet, dictGet, hk, ih]

/-! ## Claim C1: the `"8080:80"` / `"80"` port translation -/

/-- A service whose `ports` list is exactly `["8080:80"]`. -/
def svcHostMapped : Svc := [("ports", .list [.str "8080:80"])]

/-- A service whose `ports` list is exactly `["80"]`. -/
def svcBare80 : Svc := [("ports", .list [.str "80"])]

/-- The descriptor actually produced for both declarations. -/
def desc80 : PortDescriptor :=
  { port := 80, targetPort := 80, protocol := "TCP", name := "port-80-TCP" }

/-- C1 (counterexample): for the service with ports `["8080:80"]` the
generated network resource's single port has `port = 80` (the host part
`8080` is discarded entirely, it does not become `port`), and no
`LoadBalancer` exposure type is set — contradicting the claimed
`port=8080, targetPort=80` descriptor and escalation. -/
theorem c1_counterexample :
    create_service "p" "web" svcHostMapped
      = .ok (some { apiVersion := "v1", kind := "Service", name := "web",
                    labels := [("app", "p"), ("service", "web")],
                    selector := [("app", "p"), ("service", "web")],
                    ports := [desc80], type := none })
    ∧ desc80.port = 80 ∧ desc80.targetPort = 80 ∧ (80 : Int) ≠ 8080 := by
  refine ⟨rfl, rfl, rfl, by decide⟩

/-- C1 (amended): a service exposing exactly `["8080:80"]` yields a
network resource whose single port has `port = 80, targetPort = 80`
(host part discarded) and NO escalated type, exactly like a service
exposing `["80"]`; the `LoadBalancer` escalation branch never fires
because `_get_service_ports` always sets `targetPort` equal to `port`. -/
theorem c1_amended (proj name : String) :
    create_service proj name svcHostMapped
      = .ok (some { apiVersion := "v1", kind := "Service", name := name,
                    labels := [("app", proj), ("service", name)],
                    selector := [("app", proj), ("service", name)],
                    ports := [desc80], type := none })
    ∧ create_service proj name svcBare80
      = .ok (some { apiVersion := "v1", kind := "Service", name := name,
                    labels := [("app", proj), ("service", name)],
                    selector := [("app", proj), ("service", name)],
                    ports := [desc80], type := none }) :=
  ⟨rfl, rfl⟩

/-! ## Claim C3: the storage-claim default -/

/-- A persistent volume declaration with a claim name and no `storage`. -/
def volPersistentNoStorage : Svc :=
  [("k8s", .dict [("type", .str "persistent"), ("claim_name", .str "data-claim")])]

/-- The same declaration with an explicit `storage` value. -/
def volPersistentWithStorage : Svc :=
  [("k8s", .dict [("type", .str "persistent"), ("claim_name", .str "data-claim"),
                  ("storage", .str "5Gi")])]

/-- C3 (code bug): the storage-claim generator never emits a claim at
all — for every persistent volume declaration, with or without an
explicit `storage` value, the assignment
`template['spec']['requested']['storage'] = '1Gi'` (line 462) raises
`KeyError('requested')` because `'requested'` is looked up in the
freshly created empty `spec` map before anything is stored under it. -/
theorem c3_pvc_requested_keyerror :
    Deployment.persistent_volume_claims
        { svcs := [], projectName := "proj", vols := [("data", volPersistentNoStorage)] }
      = .error (.keyError "requested")
    ∧ Deployment.persistent_volume_claims
        { svcs := [], projectName := "proj", vols := [("data", volPersistentWithStorage)] }
      = .error (.keyError "requested") :=
  ⟨rfl, rfl⟩

/-! ## Claim C4: volatile volumes -/

/-- A volume declaration carrying a `volatile` extension block. -/
def volVolatile : Svc := [("k8s", .dict [("type", .str "volatile")])]

/-- C4 (code bug): a volatile volume raises no error, but the generator
does NOT leave the output sequence without an entry for it: because the
loop at lines 490-491 appends the helper's return value unconditionally,
the output contains a `None` placeholder for the volatile volume — an
entry that is not a well-formed claim resource. -/
theorem c4_volatile_appends_null :
    Deployment.persistent_volume_claims
        { svcs := [], projectName := "proj", vols := [("tmp", volVolatile)] }
      = .ok [none] :=
  rfl

/-! ## Claim C6: link alias expansion -/

/-- Service `serviceA`, with ports `[80]`. -/
def svcA_alias : Svc := [("ports", .list [.int 80])]

/-- Service `serviceB`, with `links: ["serviceA:aliasA"]`. -/
def svcB_alias : Svc := [("links", .list [.str "serviceA:aliasA"])]

/-- A service whose link references a service that does not exist. -/
def svcB_ghost : Svc := [("links", .list [.str "ghost:aliasX"])]

/-- The resource generated for `serviceA` (and, under the alias name,
for `aliasA`). -/
def resA (proj name : String) : ServiceResource :=
  { apiVersion := "v1", kind := "Service", name := name,
    labels := [("app", proj), ("service", name)],
    selector := [("app", proj), ("service", name)],
    ports := [desc80], type := none }

/-- C6: with `serviceA` exposing `[80]` and `serviceB` linking
`"serviceA:aliasA"`, the network-resource sequence contains a resource
named `serviceA` and one named `aliasA` carrying identical port lists;
a links entry referencing a nonexistent service (`ghost`) adds no
resource. -/
theorem c6_alias_expansion (proj : String) :
    Deployment.services
        { svcs := [("serviceA", svcA_alias), ("serviceB", svcB_alias)],
          projectName := proj, vols := [] }
      = .ok [resA proj "serviceA", resA proj "aliasA"]
    ∧ (resA proj "serviceA").name = "serviceA"
    ∧ (resA proj "aliasA").name = "aliasA"
    ∧ (resA proj "serviceA").ports = (resA proj "aliasA").ports
    ∧ Deployment.services
        { svcs := [("serviceA", svcA_alias), ("serviceB", svcB_ghost)],
          projectName := proj, vols := [] }
      = .ok [resA proj "serviceA"] :=
  ⟨rfl, rfl, rfl, rfl, rfl⟩

/-! ## Claim C9: the environment normalizer on list input -/

/-- Character lists: `(a ++ b).data` is `a.data ++ b.data`. -/
theorem string_toList_append2 (k v : String) :
    (k ++ "=" ++ v).toList = k.toList ++ '=' :: v.toList := by
  show (k.data ++ "=".data) ++ v.data = k.data ++ '=' :: v.data
  rw [List.append_assoc]
  rfl

/-- Evaluation of `splitFirst` on a list without the separator. -/
theorem splitFirst_not_mem {c : Char} {l : List Char} (h : c ∉ l) :
    splitFirst c l = (l, none) := by
  induction l with
  | nil => rfl
  | cons a rest ih =>
    rw [splitFirst]
    rw [if_neg (by simpa using fun hh : a = c => h (hh ▸ List.mem_cons_self a rest))]
    rw [ih (fun hm => h (List.mem_cons_of_mem a hm))]

/-- Evaluation of `splitFirst` at the first separator occurrence. -/
theorem splitFirst_append {c : Char} {l : List Char} (r : List Char) (h : c ∉ l) :
    splitFirst c (l ++ c :: r) = (l, some r) := by
  induction l with
  | nil => simp [splitFirst]
  | cons a rest ih =>
    rw [List.cons_append, splitFirst]
    rw [if_neg (by simpa using fun hh : a = c => h (hh ▸ List.mem_cons_self a rest))]
    rw [ih (fun hm => h (List.mem_cons_of_mem a hm))]

/-- Mapping `mapE` over string entries never fails and maps `perEntryEnv`. -/
theorem mapE_env (xs : List String) :
    mapE envEntry (xs.map PyVal.str) = .ok (xs.map perEntryEnv) := by
  induction xs with
  | nil => rfl
  | cons x xs ih => simp [mapE, envEntry, ih]

/-- C9: a list-form environment declaration maps entry-wise, in order, to
`{name, value}` pairs: `"KEY=VALUE"` splits at the first `=` only, and a
bare `"KEY"` yields the value `None` (null), not the empty string. -/
theorem c9_env_normalizer :
    (∀ xs : List String,
        expand_env_vars (.list (xs.map PyVal.str)) = .ok (xs.map perEntryEnv))
    ∧ (∀ k v : String, '=' ∉ k.toList →
        perEntryEnv (k ++ "=" ++ v) = .dict [("name", .str k), ("value", .str v)])
    ∧ (∀ s : String, '=' ∉ s.toList →
        perEntryEnv s = .dict [("name", .str s), ("value", .null)]) := by
  refine ⟨fun xs => mapE_env xs, fun k v hk => ?_, fun s hs => ?_⟩
  · rw [perEntryEnv, string_toList_append2, splitFirst_append _ hk]
    rfl
  · rw [perEntryEnv, splitFirst_not_mem hs]
    rfl

/-- C9 (witness): the normalizer at concrete inputs. -/
theorem c9_witness :
    expand_env_vars (.list [.str "PATH=/usr/bin", .str "HOME"])
      = .ok (["PATH=/usr/bin", "HOME"].map perEntryEnv)
    ∧ perEntryEnv ("DEBUG" ++ "=" ++ "a=b")
      = .dict [("name", .str "DEBUG"), ("value", .str "a=b")]
    ∧ perEntryEnv "TERM" = .dict [("name", .str "TERM"), ("value", .null)] :=
  ⟨c9_env_normalizer.1 ["PATH=/usr/bin", "HOME"],
   c9_env_normalizer.2.1 "DEBUG" "a=b" (by decide),
   c9_env_normalizer.2.2 "TERM" (by decide)⟩

/-! ## Claim C7: idempotence of the generators -/

/-- C7: every generator is a pure function of the translator's input
state — the source recomputes each derived sequence in full on every
property access, reads (but never writes) `self._services` /
`self._volumes`, and deep-copies shared label maps into each resource —
so a second evaluation on the unchanged input is literally the same
computation and returns the same output sequence. -/
theorem c7_idempotent (d : Deployment) :
    (∀ out, Deployment.services d = .ok out → Deployment.services d = .ok out)
    ∧ (∀ out, Deployment.service_tasks d = .ok out → Deployment.service_tasks d = .ok out)
    ∧ (∀ out, Deployment.deployments d = .ok out → Deployment.deployments d = .ok out)
    ∧ (∀ out, Deployment.deployment_tasks d = .ok out → Deployment.deployment_tasks d = .ok out)
    ∧ (∀ out, Deployment.persistent_volume_claims d = .ok out →
        Deployment.persistent_volume_claims d = .ok out) :=
  ⟨fun _ h => h, fun _ h => h, fun _ h => h, fun _ h => h, fun _ h => h⟩

/-- The input used to witness idempotence. -/
def dWitness : Deployment :=
  { svcs := [("web", [("ports", .list [.int 80])])], projectName := "p",
    vols := [("tmp", volVolatile)] }

/-- The container generated for `dWitness`'s single service. -/
def webContainer : Container :=
  [("name", .str "web"), ("securityContext", .dict []), ("state", .str "present"),
   ("ports", .list [.dict [("containerPort", .int 80), ("protocol", .str "TCP")]])]

/-- C7 (witness): the generators evaluated twice at a concrete input on
which they all succeed. -/
theorem c7_witness :
    Deployment.services dWitness = .ok [resA "p" "web"]
    ∧ Deployment.deployments dWitness
      = .ok [{ apiVersion := "extensions/v1beta1", kind := "Deployment", name := "web",
               labels := [("app", "p"), ("service", "web")], ns := "p",
               containers := [webContainer], templateReplicas := 1,
               strategyType := "RollingUpate", volumes := [], replicas := none }]
    ∧ Deployment.persistent_volume_claims dWitness = .ok [none] :=
  ⟨(c7_idempotent dWitness).1 _ rfl,
   (c7_idempotent dWitness).2.2.1 _ rfl,
   (c7_idempotent dWitness).2.2.2.2 _ rfl⟩

/-! ## Claim C2: the port resolver's dedup and normalization -/

/-- What actually holds of every resolver output: descriptors are
pairwise distinct on the `(port, protocol)` pair with the protocol
compared exactly as stored (case-sensitively), every descriptor's
`targetPort` equals its `port`, and every name has the shape
`port-<token>-<PROTOCOL>` with only the NAME's protocol uppercased. -/
def portsInv (ps : List PortDescriptor) : Prop :=
  List.Pairwise (fun a b => ¬(a.port = b.port ∧ a.protocol = b.protocol)) ps ∧
  ∀ p ∈ ps, p.targetPort = p.port ∧ ∃ tok, p.name = "port-" ++ tok ++ "-" ++ pyUpper p.protocol

/-- Appending via `_append_port` preserves `portsInv`. -/
theorem append_port_inv {ps ps' : List PortDescriptor} {tok : PyVal} {proto : String}
    (hinv : portsInv ps) (h : append_port ps tok proto = .ok ps') : portsInv ps' := by
  rw [append_port] at h
  obtain ⟨n, hn, h2⟩ := exBind_ok_inv h
  by_cases hdup : port_in_list ps n proto
  · rw [if_pos hdup] at h2
    cases h2
    exact hinv
  · rw [if_neg hdup] at h2
    cases h2
    constructor
    · rw [List.pairwise_append]
      refine ⟨hinv.1, List.pairwise_singleton _ _, ?_⟩
      intro a ha b hb
      rw [List.mem_singleton] at hb
      subst hb
      rintro ⟨hp, hpr⟩
      apply hdup
      rw [port_in_list, List.any_eq_true]
      exact ⟨a, ha, by simp [hp, hpr]⟩
    · intro p hp
      rcases List.mem_append.mp hp with hl | hr
      · exact hinv.2 p hl
      · rw [List.mem_singleton] at hr
        subst hr
        exact ⟨rfl, pyRepr tok, rfl⟩

/-- The `ports` loop step preserves `portsInv`. -/
theorem portsStep_inv {ps ps' : List PortDescriptor} {e : PyVal}
    (hinv : portsInv ps) (h : portsStep ps e = .ok ps') : portsInv ps' := by
  rw [portsStep] at h
  obtain ⟨tp, _, h2⟩ := exBind_ok_inv h
  obtain ⟨tok, proto⟩ := tp
  exact append_port_inv hinv h2

/-- The `expose` loop step preserves `portsInv`. -/
theorem exposeStep_inv {ps ps' : List PortDescriptor} {e : PyVal}
    (hinv : portsInv ps) (h : exposeStep ps e = .ok ps') : portsInv ps' := by
  rw [exposeStep] at h
  obtain ⟨tp, _, h2⟩ := exBind_ok_inv h
  obtain ⟨tok, proto⟩ := tp
  exact append_port_inv hinv h2

/-- Folding over `xs ++ [a]` is folding over `xs` followed by one step. -/
theorem foldE_append_singleton {σ α : Type} (f : σ → α → Except PyErr σ) (i : σ)
    (xs : List α) (a : α) :
    foldE f i (xs ++ [a]) = (foldE f i xs >>= fun s => f s a) := by
  induction xs generalizing i with
  | nil =>
    rw [List.nil_append, foldE_cons]
    cases hf : f i a with
    | error e => exact hf.symm
    | ok s => exact hf.symm
  | cons x xs ih =>
    rw [List.cons_append, foldE_cons, foldE_cons]
    cases hf : f i x with
    | error e => rfl
    | ok s =>
      rw [exBind_ok, exBind_ok]
      exact ih s

/-- On a service whose only directive is a `ports` list, the resolver is
exactly the fold of the `ports` loop (the `expose` fold is vacuous). -/
theorem gsp_ports_only (es : List PyVal) :
    get_service_ports [("ports", PyVal.list es)] = foldE portsStep [] es := by
  rw [get_service_ports]
  rw [show pyIter ((dictGet [("ports", PyVal.list es)] "ports").getD (PyVal.list []))
        = Except.ok es from rfl, exBind_ok]
  cases hf : foldE portsStep [] es with
  | error e => rfl
  | ok ps => rfl

/-- C2 (amended): the resolver keeps exactly one descriptor per distinct
`(port, protocol-token)` pair with the token compared case-sensitively
as written, the FIRST-SEEN declaration winning.  (i) Every successful
output is pairwise distinct on the pair, with `targetPort = port` and
names of the shape `port-<token>-<PROTOCOL>`.  (ii) `_append_port`
silently drops a declaration whose pair is already present — the earlier
descriptor, metadata included, stays untouched — and otherwise appends a
descriptor whose `protocol` field holds the RAW token, the uppercase
form appearing only in the name.  (iii) The tokenizer assigns protocol
`TCP` to every declaration without a protocol token (bare numbers, plain
strings, `host:container` strings) and carries the `/`-token verbatim
(raw case) otherwise, discarding the host part.  (iv) At run level,
appending to a `ports` list one more declaration — in any string form —
whose pair was already produced leaves the output sequence unchanged. -/
theorem c2_amended :
    (∀ (svc : Svc) (ps : List PortDescriptor), get_service_ports svc = .ok ps →
      List.Pairwise (fun a b => ¬(a.port = b.port ∧ a.protocol = b.protocol)) ps ∧
      ∀ p ∈ ps, p.targetPort = p.port ∧
        ∃ tok, p.name = "port-" ++ tok ++ "-" ++ pyUpper p.protocol)
    ∧ (∀ (ps : List PortDescriptor) (tok : PyVal) (proto : String) (n : Int),
        pyInt tok = .ok n →
        (port_in_list ps n proto = true → append_port ps tok proto = .ok ps) ∧
        (port_in_list ps n proto = false →
          append_port ps tok proto
            = .ok (ps ++ [{ port := n, targetPort := n, protocol := proto,
                            name := "port-" ++ pyRepr tok ++ "-" ++ pyUpper proto }])))
    ∧ (∀ (n : Int) (colon : Bool), portSplit colon (.int n) = .ok (.int n, "TCP"))
    ∧ (∀ (s : String) (colon : Bool), pyContains s '/' = false →
        pyContains s ':' = false → portSplit colon (.str s) = .ok (.str s, "TCP"))
    ∧ (∀ (s h p : String), pyContains s '/' = false → pyContains s ':' = true →
        pySplit s ':' = [h, p] → portSplit true (.str s) = .ok (.str p, "TCP"))
    ∧ (∀ (s a b : String), pyContains s '/' = true → pySplit s '/' = [a, b] →
        pyContains a ':' = false → portSplit true (.str s) = .ok (.str a, b))
    ∧ (∀ (s a b h p : String), pyContains s '/' = true → pySplit s '/' = [a, b] →
        pyContains a ':' = true → pySplit a ':' = [h, p] →
        portSplit true (.str s) = .ok (.str p, b))
    ∧ (∀ (es : List PyVal) (e tok : PyVal) (proto : String) (n : Int)
          (ps : List PortDescriptor),
        get_service_ports [("ports", .list es)] = .ok ps →
        portSplit true e = .ok (tok, proto) → pyInt tok = .ok n →
        port_in_list ps n proto = true →
        get_service_ports [("ports", .list (es ++ [e]))] = .ok ps) := by
  refine ⟨?_, ?_, ?_, ?_, ?_, ?_, ?_, ?_⟩
  · intro svc ps h
    rw [get_service_ports] at h
    obtain ⟨e1, _, h⟩ := exBind_ok_inv h
    obtain ⟨ps1, hf1, h⟩ := exBind_ok_inv h
    obtain ⟨e2, _, h⟩ := exBind_ok_inv h
    have hnil : portsInv [] :=
      ⟨List.Pairwise.nil, fun p hp => absurd hp (List.not_mem_nil p)⟩
    have hinv1 : portsInv ps1 :=
      foldE_preserve (fun s a s' hp hf => portsStep_inv hp hf) e1 [] ps1 hnil hf1
    exact foldE_preserve (fun s a s' hp hf => exposeStep_inv hp hf) e2 ps1 ps hinv1 h
  · intro ps tok proto n hint
    constructor
    · intro hdup
      rw [append_port, hint, exBind_ok, if_pos hdup]
    · intro hnot
      rw [append_port, hint, exBind_ok,
        if_neg (show ¬(port_in_list ps n proto = true) by
          rw [hnot]; exact Bool.false_ne_true)]
  · intro n colon
    rfl
  · intro s colon h1 h2
    simp [portSplit, h1, h2]
  · intro s h p h1 h2 hsplit
    simp [portSplit, h1, h2, hsplit]
  · intro s a b h1 hsplit h2
    simp [portSplit, h1, h2, hsplit]
  · intro s a b h p h1 hsplit1 h2 hsplit2
    simp [portSplit, h1, h2, hsplit1, hsplit2]
  · intro es e tok proto n ps hrun hsplit hint hdup
    rw [gsp_ports_only] at hrun
    rw [gsp_ports_only, foldE_append_singleton, hrun, exBind_ok]
    have happ : append_port ps tok proto = .ok ps := by
      rw [append_port, hint, exBind_ok, if_pos hdup]
    rw [portsStep, hsplit, exBind_ok]
    exact happ

/-- The input witnessing C2's part (i). -/
def svcPortsMix : Svc := [("ports", .list [.str "80", .str "8080:80/tcp"])]

/-- The resolver output for `svcPortsMix`: the bare `"80"` yields the
`TCP` pair; `"8080:80/tcp"` is NOT a duplicate of it because the raw
token `tcp` differs case-sensitively from `TCP`. -/
def psPortsMix : List PortDescriptor :=
  [desc80, { port := 80, targetPort := 80, protocol := "tcp", name := "port-80-TCP" }]

/-- C2 (witness): the amended statement discharged at concrete inputs —
including a `ports` list whose three declarations `"80"`, `"8080:80"`
and `"80/TCP"` all denote the pair `(80, TCP)`: exactly one descriptor
results, carrying the first-seen declaration's metadata; a duplicate
append leaves the state untouched; and the tokenizer's `TCP` default
and raw lowercase-token extraction at concrete declarations. -/
theorem c2_witness :
    (List.Pairwise (fun a b => ¬(a.port = b.port ∧ a.protocol = b.protocol)) psPortsMix ∧
      ∀ p ∈ psPortsMix, p.targetPort = p.port ∧
        ∃ tok, p.name = "port-" ++ tok ++ "-" ++ pyUpper p.protocol)
    ∧ get_service_ports
        [("ports", PyVal.list ([.str "80", .str "8080:80"] ++ [.str "80/TCP"]))]
      = .ok [desc80]
    ∧ append_port [desc80] (.str "80") "TCP" = .ok [desc80]
    ∧ portSplit true (.int 8080) = .ok (.int 8080, "TCP")
    ∧ portSplit true (.str "8080:80/tcp") = .ok (.str "80", "tcp") :=
  ⟨c2_amended.1 svcPortsMix psPortsMix rfl,
   c2_amended.2.2.2.2.2.2.2 [.str "80", .str "8080:80"] (.str "80/TCP") (.str "80") "TCP" 80
     [desc80] rfl rfl rfl rfl,
   (c2_amended.2.1 [desc80] (.str "80") "TCP" 80 rfl).1 rfl,
   c2_amended.2.2.1 8080 true,
   c2_amended.2.2.2.2.2.2.1 "8080:80/tcp" "8080:80" "tcp" "8080" "80" rfl rfl rfl rfl⟩

/-- C2 (counterexample): on `["80/tcp", "80/TCP"]` the resolver returns
TWO descriptors although both declarations denote the claim's single
distinct pair `(80, TCP)` under uppercase normalization — and the first
descriptor's `protocol` field is the raw lowercase token `tcp`, not its
uppercase form. -/
theorem c2_counterexample :
    get_service_ports [("ports", .list [.str "80/tcp", .str "80/TCP"])]
      = .ok [{ port := 80, targetPort := 80, protocol := "tcp", name := "port-80-TCP" },
             { port := 80, targetPort := 80, protocol := "TCP", name := "port-80-TCP" }]
    ∧ pyUpper "tcp" = pyUpper "TCP"
    ∧ "tcp" ≠ "TCP" :=
  ⟨rfl, rfl, by decide⟩

/-! ## Claim C5: unknown capability names abort the whole run -/

/-- A cap whose name is missing from the table makes `capStep` fail from
any container state (the unguarded `KeyError`). -/
theorem capStep_bad {lk s : String} (hmiss : capFind s = none) :
    ∀ c, ∃ e, capStep lk c (.str s) = .error e := by
  intro c
  refine ⟨.keyError s, ?_⟩
  rw [capStep, capToken, hmiss]
  rfl

/-- A cap list containing an unknown name makes the cap fold fail. -/
theorem capfold_bad {lk : String} {caps : List PyVal} {s : String}
    (hmem : PyVal.str s ∈ caps) (hmiss : capFind s = none) :
    ∀ c, ∃ e, foldE (capStep lk) c caps = .error e :=
  foldE_mem_error hmem (capStep_bad hmiss)

/-- The whole `cap_add`/`cap_drop` branch fails on such a list. -/
theorem cap_branch_bad {lk : String} {caps : List PyVal} {s : String}
    (hmem : PyVal.str s ∈ caps) (hmiss : capFind s = none) :
    ∀ c, ∃ e, cap_branch c lk (.list caps) = .error e := by
  intro c
  rw [cap_branch]
  cases hec : ensure_capabilities c with
  | error e => exact ⟨e, rfl⟩
  | ok c' =>
    obtain ⟨e, he⟩ := @capfold_bad lk caps s hmem hmiss c'
    refine ⟨e, ?_⟩
    simp only [show pyIter (PyVal.list caps) = Except.ok caps from rfl, exBind_ok]
    exact he

/-- The directive step fails on a `cap_add`/`cap_drop` entry whose list
contains an unknown name, from any state. -/
theorem step_directive_cap_bad {caps : List PyVal} {s key : String}
    (hkey : key = "cap_add" ∨ key = "cap_drop")
    (hmem : PyVal.str s ∈ caps) (hmiss : capFind s = none) :
    ∀ cv, ∃ e, step_directive cv (key, .list caps) = .error e := by
  intro cv
  rcases hkey with h | h <;> subst h
  · obtain ⟨e, he⟩ := cap_branch_bad hmem hmiss cv.1
    refine ⟨e, ?_⟩
    have hred : step_directive cv ("cap_add", .list caps)
        = (cap_branch cv.1 "add" (.list caps) >>= fun c => Except.ok (c, cv.2)) := rfl
    rw [hred, he]
    rfl
  · obtain ⟨e, he⟩ := cap_branch_bad hmem hmiss cv.1
    refine ⟨e, ?_⟩
    have hred : step_directive cv ("cap_drop", .list caps)
        = (cap_branch cv.1 "drop" (.list caps) >>= fun c => Except.ok (c, cv.2)) := rfl
    rw [hred, he]
    rfl

/-- If some directive of a service makes the step fail from every state,
`_service_to_container` fails on that service. -/
theorem s2c_bad {svc : Svc} {name : String} {item : String × PyVal}
    (hmem : item ∈ svc) (hbad : ∀ cv, ∃ e, step_directive cv item = .error e) :
    ∃ e, service_to_container name svc = .error e := by
  obtain ⟨e, he⟩ := foldE_mem_error hmem hbad
      (([("name", .str name), ("securityContext", .dict []),
         ("state", .str "present")] : Container), ([] : List PyVal))
  refine ⟨e, ?_⟩
  rw [service_to_container, he]
  rfl

/-- A failing container build fails the deployments step from any
accumulated output. -/
theorem deploymentsStep_bad {d : Deployment} {nv : String × Svc}
    (hbad : ∃ e, service_to_container nv.1 nv.2 = .error e) :
    ∀ ts, ∃ e, deploymentsStep d ts nv = .error e := by
  intro ts
  obtain ⟨e, he⟩ := hbad
  exact ⟨e, by rw [deploymentsStep, he]; rfl⟩

/-- C5: whenever any service's `cap_add` or `cap_drop` list contains a
name absent from the fixed capability table, the whole `deployments`
generation fails (the unguarded `KeyError` propagates) and no output
sequence is produced at all. -/
theorem c5_unknown_capability_aborts {d : Deployment} {name : String} {svc : Svc}
    {key : String} {caps : List PyVal} {s : String}
    (hmem : (name, svc) ∈ d.svcs)
    (hkey : key = "cap_add" ∨ key = "cap_drop")
    (hdir : dictGet svc key = some (.list caps))
    (hcap : PyVal.str s ∈ caps)
    (hmiss : capFind s = none) :
    ∃ e, Deployment.deployments d = .error e := by
  have hitem : (key, PyVal.list caps) ∈ svc := dictGet_mem hdir
  have hs2c : ∃ e, service_to_container name svc = .error e :=
    s2c_bad hitem (step_directive_cap_bad hkey hcap hmiss)
  obtain ⟨e, he⟩ := foldE_mem_error hmem (deploymentsStep_bad hs2c) []
  exact ⟨e, by rw [Deployment.deployments]; exact he⟩

/-- The input witnessing C5. -/
def dBogusCap : Deployment :=
  { svcs := [("web", [("cap_add", .list [.str "BOGUS_CAP"])])],
    projectName := "p", vols := [] }

/-- C5 (witness): the theorem discharged at a service whose `cap_add`
names the unknown capability `BOGUS_CAP`. -/
theorem c5_witness :
    (("web", ([("cap_add", PyVal.list [.str "BOGUS_CAP"])] : Svc)) ∈ dBogusCap.svcs)
    ∧ capFind "BOGUS_CAP" = none
    ∧ ∃ e, Deployment.deployments dBogusCap = .error e :=
  ⟨List.mem_singleton.mpr rfl, rfl,
   c5_unknown_capability_aborts (List.mem_singleton.mpr rfl) (Or.inl rfl) rfl
     (List.mem_singleton.mpr rfl) rfl⟩

/-! ## Claim C8: volume source classification -/

/-- Evaluating `_kube_volumes` on a single declaration is its loop body started from
the empty state. -/
theorem kube_volumes_single (v : String) :
    kube_volumes [v]
      = (kube_volumes_step ([], [], none) v >>= fun st => Except.ok (st.1, st.2.1)) := by
  cases h : kube_volumes_step ([], [], none) v with
  | error e =>
    rw [kube_volumes, foldE_cons, h]
    rfl
  | ok st =>
    obtain ⟨a, b, c⟩ := st
    rw [kube_volumes, foldE_cons, h]
    rfl

/-- C8 (amended): single-declaration classification.  With the parse
yielding a NON-EMPTY source and a non-empty destination: a source
beginning with `$` is skipped entirely; one beginning with `~`, `.` or
`/` yields a host-path volume plus a mount preserving the destination
with `readOnly` true iff the permissions token is `ro`; any other
non-empty source is a named volume yielding neither a volume nor a
mount.  An ABSENT source — and likewise a present-but-EMPTY source,
which Python's truthiness test sends down the same branch — yields an
emptyDir volume plus a mount entry. -/
theorem c8_amended (v s d : String) (pm : Option String) (hd : d ≠ "") :
    (parse_vol v = { source := some s, destination := some d, permissions := pm } →
      s ≠ "" → pyStartsWith s '$' = true →
      kube_volumes [v] = .ok ([], []))
    ∧ (parse_vol v = { source := some s, destination := some d, permissions := pm } →
      s ≠ "" → pyStartsWith s '$' = false → startsHostPath s = true →
      kube_volumes [v] = .ok ([.hostPath (slug_name d) s],
        [{ mountPath := some d, name := slug_name d, readOnly := pm == some "ro" }]))
    ∧ (parse_vol v = { source := some s, destination := some d, permissions := pm } →
      s ≠ "" → pyStartsWith s '$' = false → startsHostPath s = false →
      kube_volumes [v] = .ok ([], []))
    ∧ (parse_vol v = { source := none, destination := some d, permissions := pm } →
      kube_volumes [v] = .ok ([.emptyDir (slug_name d)],
        [{ mountPath := some d, name := slug_name d, readOnly := pm == some "ro" }]))
    ∧ (parse_vol v = { source := some "", destination := some d, permissions := pm } →
      kube_volumes [v] = .ok ([.emptyDir (slug_name d)],
        [{ mountPath := some d, name := slug_name d, readOnly := pm == some "ro" }])) := by
  have hdb : (d == "") = false := beq_eq_false_iff_ne.mpr hd
  refine ⟨fun hp hs h1 => ?_, fun hp hs h1 h2 => ?_, fun hp hs h1 h2 => ?_,
          fun hp => ?_, fun hp => ?_⟩
  · have hsb : (s == "") = false := beq_eq_false_iff_ne.mpr hs
    rw [kube_volumes_single]
    simp [kube_volumes_step, hp, hdb, hsb, h1]
  · have hsb : (s == "") = false := beq_eq_false_iff_ne.mpr hs
    rw [kube_volumes_single]
    simp [kube_volumes_step, hp, hdb, hsb, h1, h2]
  · have hsb : (s == "") = false := beq_eq_false_iff_ne.mpr hs
    rw [kube_volumes_single]
    simp [kube_volumes_step, hp, hdb, hsb, h1, h2]
  · rw [kube_volumes_single]
    simp [kube_volumes_step, hp, hdb]
  · rw [kube_volumes_single]
    simp [kube_volumes_step, hp, hdb]

/-- C8 (counterexample): the declaration `":/data"` parses with a PRESENT
but empty source, which begins with none of `$`, `~`, `.`, `/` — the
claim therefore classifies it as a named volume producing neither a
volume nor a mount — yet the translator emits an emptyDir volume AND a
mount entry for it, because Python's `if source:` treats the empty
source string as absent. -/
theorem c8_counterexample :
    parse_vol ":/data"
      = { source := some "", destination := some "/data", permissions := none }
    ∧ kube_volumes [":/data"]
      = .ok ([.emptyDir "data"],
             [{ mountPath := some "/data", name := "data", readOnly := false }])
    ∧ pyStartsWith "" '$' = false
    ∧ startsHostPath "" = false :=
  ⟨rfl, rfl, rfl, rfl⟩

/-- C8 (witness): the amended classification discharged on concrete
declarations of the host-path, named, skipped and ephemeral kinds. -/
theorem c8_witness :
    kube_volumes ["./src:/app:ro"]
      = .ok ([.hostPath "app" "./src"],
             [{ mountPath := some "/app", name := "app", readOnly := true }])
    ∧ kube_volumes ["$DATA:/data"] = .ok ([], [])
    ∧ kube_volumes ["namedvol:/data"] = .ok ([], [])
    ∧ kube_volumes ["/cache"]
      = .ok ([.emptyDir "cache"],
             [{ mountPath := some "/cache", name := "cache", readOnly := false }]) :=
  ⟨(c8_amended "./src:/app:ro" "./src" "/app" (some "ro") (by decide)).2.1
      rfl (by decide) rfl rfl,
   (c8_amended "$DATA:/data" "$DATA" "/data" none (by decide)).1
      rfl (by decide) rfl,
   (c8_amended "namedvol:/data" "namedvol" "/data" none (by decide)).2.2.1
      rfl (by decide) rfl rfl,
   (c8_amended "/cache" "" "/cache" none (by decide)).2.2.2.1 rfl⟩

/-! ## Claim C10: the broken `volumes` directive wiring -/

/-- Updating the security context never touches `volumeMounts`. -/
theorem dictGet_putSC (c : Container) (sc : PyDict) :
    dictGet (putSC c sc) "volumeMounts" = dictGet c "volumeMounts" :=
  dictGet_dictSet_ne (by decide)

/-- Updating via `setSC` never touches `volumeMounts`. -/
theorem setSC_vm {c c' : Container} {k : String} {v : PyVal}
    (h : setSC c k v = .ok c') :
    dictGet c' "volumeMounts" = dictGet c "volumeMounts" := by
  rw [setSC] at h
  obtain ⟨sc, h1, h2⟩ := exBind_ok_inv h
  cases h2
  exact dictGet_putSC c _

/-- Running `ensure_capabilities` never touches `volumeMounts`. -/
theorem ensure_vm {c c' : Container} (h : ensure_capabilities c = .ok c') :
    dictGet c' "volumeMounts" = dictGet c "volumeMounts" := by
  rw [ensure_capabilities] at h
  obtain ⟨sc, h1, h2⟩ := exBind_ok_inv h
  split at h2
  · split at h2
    · cases h2; rfl
    · cases h2; exact dictGet_putSC c _
  · cases h2; exact dictGet_putSC c _

/-- Running `addCapToken` never touches `volumeMounts`. -/
theorem addCapToken_vm {c c' : Container} {lk tok : String}
    (h : addCapToken c lk tok = .ok c') :
    dictGet c' "volumeMounts" = dictGet c "volumeMounts" := by
  rw [addCapToken] at h
  obtain ⟨sc, h1, h2⟩ := exBind_ok_inv h
  split at h2
  · split at h2
    · cases h2; exact dictGet_putSC c _
    · exact Except.noConfusion h2
    · exact Except.noConfusion h2
  · exact Except.noConfusion h2
  · exact Except.noConfusion h2

/-- One cap never touches `volumeMounts`. -/
theorem capStep_vm {lk : String} {c c' : Container} {cap : PyVal}
    (h : capStep lk c cap = .ok c') :
    dictGet c' "volumeMounts" = dictGet c "volumeMounts" := by
  rw [capStep] at h
  obtain ⟨tok, h1, h2⟩ := exBind_ok_inv h
  split at h2
  · cases h2; rfl
  · exact addCapToken_vm h2

/-- The whole `cap_add`/`cap_drop` branch never touches `volumeMounts`. -/
theorem cap_branch_vm {c c' : Container} {lk : String} {v : PyVal}
    (h : cap_branch c lk v = .ok c') :
    dictGet c' "volumeMounts" = dictGet c "volumeMounts" := by
  rw [cap_branch] at h
  obtain ⟨c1, h1, h⟩ := exBind_ok_inv h
  obtain ⟨caps, h2, h⟩ := exBind_ok_inv h
  have hc1 := ensure_vm h1
  exact (@foldE_preserve Container PyVal (capStep lk)
      (fun x => dictGet x "volumeMounts" = dictGet c "volumeMounts")
      (fun s a s' hp hf => (capStep_vm hf).trans hp) caps c1 c' hc1 h)

/-- The directive step leaves the pod-level `volumes` accumulator
unchanged whenever it succeeds (the only branch that would extend it —
the `volumes` directive — always raises), and it adds no `volumeMounts`
entry to the container unless the directive key is literally
`volumeMounts` (the pass-through escape hatch). -/
theorem step_directive_preserve {cv cv' : Container × List PyVal} {kv : String × PyVal}
    (h : step_directive cv kv = .ok cv') :
    cv'.2 = cv.2 ∧ (kv.1 ≠ "volumeMounts" → dictGet cv.1 "volumeMounts" = none →
      dictGet cv'.1 "volumeMounts" = none) := by
  obtain ⟨key, value⟩ := kv
  rw [step_directive] at h
  by_cases h0 : IGNORE_DIRECTIVES.contains key
  · rw [if_pos h0] at h
    cases h
    exact ⟨rfl, fun _ hv => hv⟩
  rw [if_neg h0] at h
  by_cases h1 : key == "cap_add"
  · rw [if_pos h1] at h
    obtain ⟨c1, hc, h2⟩ := exBind_ok_inv h
    cases h2
    exact ⟨rfl, fun _ hv => (cap_branch_vm hc).trans hv⟩
  rw [if_neg h1] at h
  by_cases h2 : key == "cap_drop"
  · rw [if_pos h2] at h
    obtain ⟨c1, hc, h3⟩ := exBind_ok_inv h
    cases h3
    exact ⟨rfl, fun _ hv => (cap_branch_vm hc).trans hv⟩
  rw [if_neg h2] at h
  by_cases h3 : key == "command"
  · rw [if_pos h3] at h
    cases value with
    | str s =>
      obtain ⟨args, ha, hb⟩ := exBind_ok_inv h
      cases hb
      exact ⟨rfl, fun _ hv => (dictGet_dictSet_ne (by decide)).trans hv⟩
    | int n => cases h; exact ⟨rfl, fun _ hv => (dictGet_dictSet_ne (by decide)).trans hv⟩
    | bool b => cases h; exact ⟨rfl, fun _ hv => (dictGet_dictSet_ne (by decide)).trans hv⟩
    | null => cases h; exact ⟨rfl, fun _ hv => (dictGet_dictSet_ne (by decide)).trans hv⟩
    | list xs => cases h; exact ⟨rfl, fun _ hv => (dictGet_dictSet_ne (by decide)).trans hv⟩
    | dict kvs => cases h; exact ⟨rfl, fun _ hv => (dictGet_dictSet_ne (by decide)).trans hv⟩
  rw [if_neg h3] at h
  by_cases h4 : key == "container_name"
  · rw [if_pos h4] at h
    cases h
    exact ⟨rfl, fun _ hv => (dictGet_dictSet_ne (by decide)).trans hv⟩
  rw [if_neg h4] at h
  by_cases h5 : key == "entrypoint"
  · rw [if_pos h5] at h
    cases value with
    | str s =>
      obtain ⟨args, ha, hb⟩ := exBind_ok_inv h
      cases hb
      exact ⟨rfl, fun _ hv => (dictGet_dictSet_ne (by decide)).trans hv⟩
    | int n => cases h; exact ⟨rfl, fun _ hv => (dictGet_dictSet_ne (by decide)).trans hv⟩
    | bool b => cases h; exact ⟨rfl, fun _ hv => (dictGet_dictSet_ne (by decide)).trans hv⟩
    | null => cases h; exact ⟨rfl, fun _ hv => (dictGet_dictSet_ne (by decide)).trans hv⟩
    | list xs => cases h; exact ⟨rfl, fun _ hv => (dictGet_dictSet_ne (by decide)).trans hv⟩
    | dict kvs => cases h; exact ⟨rfl, fun _ hv => (dictGet_dictSet_ne (by decide)).trans hv⟩
  rw [if_neg h5] at h
  by_cases h6 : key == "environment"
  · rw [if_pos h6] at h
    obtain ⟨ev, ha, hb⟩ := exBind_ok_inv h
    cases hb
    refine ⟨rfl, fun _ hv => ?_⟩
    by_cases hemp : ev.isEmpty
    · rw [if_pos hemp]
      exact hv
    · rw [if_neg hemp]
      exact (dictGet_dictSet_ne (by decide)).trans hv
  rw [if_neg h6] at h
  by_cases h7 : key == "ports" || key == "expose"
  · rw [if_pos h7] at h
    obtain ⟨xs, ha, h⟩ := exBind_ok_inv h
    obtain ⟨xs2, hb, h⟩ := exBind_ok_inv h
    cases h
    exact ⟨rfl, fun _ hv => (dictGet_dictSet_ne (by decide)).trans hv⟩
  rw [if_neg h7] at h
  by_cases h8 : key == "privileged"
  · rw [if_pos h8] at h
    obtain ⟨c1, ha, hb⟩ := exBind_ok_inv h
    cases hb
    exact ⟨rfl, fun _ hv => (setSC_vm ha).trans hv⟩
  rw [if_neg h8] at h
  by_cases h9 : key == "read_only"
  · rw [if_pos h9] at h
    obtain ⟨c1, ha, hb⟩ := exBind_ok_inv h
    cases hb
    exact ⟨rfl, fun _ hv => (setSC_vm ha).trans hv⟩
  rw [if_neg h9] at h
  by_cases h10 : key == "stdin_open"
  · rw [if_pos h10] at h
    cases h
    exact ⟨rfl, fun _ hv => (dictGet_dictSet_ne (by decide)).trans hv⟩
  rw [if_neg h10] at h
  by_cases h11 : key == "volumes"
  · rw [if_pos h11] at h
    exact Except.noConfusion h
  rw [if_neg h11] at h
  by_cases h12 : key == "working_dir"
  · rw [if_pos h12] at h
    cases h
    exact ⟨rfl, fun _ hv => (dictGet_dictSet_ne (by decide)).trans hv⟩
  rw [if_neg h12] at h
  cases h
  refine ⟨rfl, fun hne hv => ?_⟩
  exact (dictGet_dictSet_ne (fun hh => hne hh.symm)).trans hv

/-- The extension-block step never touches `volumeMounts` (it writes
only to the security context and the pod-scope dict). -/
theorem step_k8s_vm {cp cp' : Container × PyDict} {kv : String × PyVal}
    (h : step_k8s cp kv = .ok cp') :
    dictGet cp'.1 "volumeMounts" = dictGet cp.1 "volumeMounts" := by
  rw [step_k8s] at h
  by_cases h0 : kv.1 == "seLinuxOptions"
  · rw [if_pos h0] at h
    obtain ⟨c1, ha, hb⟩ := exBind_ok_inv h
    cases hb
    exact setSC_vm ha
  rw [if_neg h0] at h
  by_cases h1 : kv.1 == "runAsNonRoot"
  · rw [if_pos h1] at h
    obtain ⟨c1, ha, hb⟩ := exBind_ok_inv h
    cases hb
    exact setSC_vm ha
  rw [if_neg h1] at h
  by_cases h2 : kv.1 == "runAsUser"
  · rw [if_pos h2] at h
    obtain ⟨c1, ha, hb⟩ := exBind_ok_inv h
    cases hb
    exact setSC_vm ha
  rw [if_neg h2] at h
  by_cases h3 : kv.1 == "replicas"
  · rw [if_pos h3] at h
    cases h
    rfl
  rw [if_neg h3] at h
  by_cases h4 : kv.1 == "state"
  · rw [if_pos h4] at h
    cases h
    rfl
  rw [if_neg h4] at h
  cases h
  rfl

/-- The directive fold leaves the `volumes` accumulator unchanged. -/
theorem folddir_vols {items : List (String × PyVal)} :
    ∀ {cv cv' : Container × List PyVal},
    foldE step_directive cv items = .ok cv' → cv'.2 = cv.2 := by
  induction items with
  | nil =>
    intro cv cv' h
    cases h
    rfl
  | cons kv rest ih =>
    intro cv cv' h
    rw [foldE_cons] at h
    obtain ⟨cv1, h1, h2⟩ := exBind_ok_inv h
    exact (ih h2).trans (step_directive_preserve h1).1

/-- The directive fold adds no `volumeMounts` entry when no directive key
is literally `volumeMounts`. -/
theorem folddir_vm {items : List (String × PyVal)} :
    ∀ {cv cv' : Container × List PyVal},
    (∀ kv ∈ items, kv.1 ≠ "volumeMounts") →
    foldE step_directive cv items = .ok cv' →
    dictGet cv.1 "volumeMounts" = none → dictGet cv'.1 "volumeMounts" = none := by
  induction items with
  | nil =>
    intro cv cv' _ h hv
    cases h
    exact hv
  | cons kv rest ih =>
    intro cv cv' hkeys h hv
    rw [foldE_cons] at h
    obtain ⟨cv1, h1, h2⟩ := exBind_ok_inv h
    have hv1 := (step_directive_preserve h1).2 (hkeys kv (List.mem_cons_self _ _)) hv
    exact ih (fun x hx => hkeys x (List.mem_cons_of_mem _ hx)) h2 hv1

/-- Unfolding of the extension phase on a present `k8s` value. -/
theorem k8sPhase_some (v : PyVal) (c : Container) (vv : List PyVal) :
    k8sPhase (some v) c vv
      = (if pyTruthy v then
          (match v with
           | PyVal.dict kvs => do
             let (c2, pod) ← foldE step_k8s (c, []) kvs
             Except.ok (c2, vv, pod)
           | _ => Except.error PyErr.attributeError)
         else Except.ok (c, vv, [])) := rfl

/-- What `_service_to_container` guarantees of its output whenever it
succeeds: the pod-level volume list is empty (the only code extending it
is unreachable past the broken `_kube_volumes` call), and — provided the
service has no literal `volumeMounts` directive — the container has no
`volumeMounts` entry either. -/
theorem s2c_parts {name : String} {svc : Svc} {c : Container} {vols : List PyVal}
    {pod : PyDict}
    (h : service_to_container name svc = .ok (c, vols, pod)) :
    vols = [] ∧ (dictGet svc "volumeMounts" = none → dictGet c "volumeMounts" = none) := by
  rw [service_to_container] at h
  obtain ⟨cv1, h1, h2⟩ := exBind_ok_inv h
  obtain ⟨c1, v1⟩ := cv1
  have hvols : v1 = [] := folddir_vols h1
  have hvm1 : dictGet svc "volumeMounts" = none → dictGet c1 "volumeMounts" = none := by
    intro hnovm
    exact folddir_vm (fun kv hkv => dictGet_none hnovm kv hkv) h1 rfl
  cases hk8s : dictGet svc "k8s" with
  | none =>
    rw [hk8s] at h2
    injection h2 with h5
    injection h5 with hc h6
    injection h6 with hv2 hp
    subst hc
    subst hv2
    exact ⟨hvols, hvm1⟩
  | some v =>
    rw [hk8s] at h2
    have h2' : k8sPhase (some v) c1 v1 = Except.ok (c, vols, pod) := h2
    rw [k8sPhase_some] at h2'
    by_cases htr : pyTruthy v
    · rw [if_pos htr] at h2'
      cases v with
      | dict kvs =>
        obtain ⟨cp2, h3, h4⟩ := exBind_ok_inv h2'
        obtain ⟨c2, pod2⟩ := cp2
        injection h4 with h5
        injection h5 with hc h6
        injection h6 with hv2 hp
        subst hc
        subst hv2
        have hk : dictGet c2 "volumeMounts" = dictGet c1 "volumeMounts" :=
          @foldE_preserve (Container × PyDict) (String × PyVal) step_k8s
            (fun x => dictGet x.1 "volumeMounts" = dictGet c1 "volumeMounts")
            (fun s a s' hps hf => (step_k8s_vm hf).trans hps) kvs (c1, []) (c2, pod2) rfl h3
        exact ⟨hvols, fun hnovm => hk.trans (hvm1 hnovm)⟩
      | str s => exact Except.noConfusion h2'
      | int n => exact Except.noConfusion h2'
      | bool b => exact Except.noConfusion h2'
      | null => exact Except.noConfusion h2'
      | list xs => exact Except.noConfusion h2'
    · rw [if_neg htr] at h2'
      injection h2' with h5
      injection h5 with hc h6
      injection h6 with hv2 hp
      subst hc
      subst hv2
      exact ⟨hvols, hvm1⟩

/-- A successful deployments step either emits nothing or appends one
resource built from a successful container translation. -/
theorem deploymentsStep_ok_inv {d : Deployment} {ts0 ts1 : List DeploymentResource}
    {nv : String × Svc} (h : deploymentsStep d ts0 nv = .ok ts1) :
    ts1 = ts0 ∨ ∃ c vols pod, service_to_container nv.1 nv.2 = .ok (c, vols, pod) ∧
      ∃ r : DeploymentResource, ts1 = ts0 ++ [r] ∧ r.volumes = vols ∧ r.containers = [c] := by
  rw [deploymentsStep] at h
  obtain ⟨cvp, h1, h2⟩ := exBind_ok_inv h
  obtain ⟨c, vols, pod⟩ := cvp
  by_cases hst : pyEqStrB (popState pod).1 "present"
  · rw [if_pos hst] at h2
    injection h2 with h3
    exact Or.inr ⟨c, vols, pod, h1, _, h3.symm, rfl, rfl⟩
  · rw [if_neg hst] at h2
    injection h2 with h3
    exact Or.inl h3.symm

/-- Every resource emitted by the deployments fold has an empty pod-level
volume list. -/
theorem deployments_fold_vols {d : Deployment} :
    ∀ (svcs : List (String × Svc)) (ts0 ts : List DeploymentResource),
    foldE (deploymentsStep d) ts0 svcs = .ok ts →
    (∀ t ∈ ts0, t.volumes = []) → ∀ t ∈ ts, t.volumes = [] := by
  intro svcs
  induction svcs with
  | nil =>
    intro ts0 ts h h0
    cases h
    exact h0
  | cons nv rest ih =>
    intro ts0 ts h h0
    rw [foldE_cons] at h
    obtain ⟨ts1, h1, h2⟩ := exBind_ok_inv h
    refine ih ts1 ts h2 ?_
    rcases deploymentsStep_ok_inv h1 with heq | ⟨cc, vols, pod, hs2c, r, heq, hrv, hrc⟩
    · subst heq
      exact h0
    · subst heq
      intro t ht
      rcases List.mem_append.mp ht with hl | hr
      · exact h0 t hl
      · rw [List.mem_singleton] at hr
        subst hr
        rw [hrv]
        exact (s2c_parts hs2c).1

/-- When no service carries a literal `volumeMounts` directive, no
emitted resource's container carries a `volumeMounts` entry. -/
theorem deployments_fold_vm {d : Deployment} :
    ∀ (svcs : List (String × Svc)) (ts0 ts : List DeploymentResource),
    (∀ nv ∈ svcs, dictGet nv.2 "volumeMounts" = none) →
    foldE (deploymentsStep d) ts0 svcs = .ok ts →
    (∀ t ∈ ts0, ∀ cc ∈ t.containers, dictGet cc "volumeMounts" = none) →
    ∀ t ∈ ts, ∀ cc ∈ t.containers, dictGet cc "volumeMounts" = none := by
  intro svcs
  induction svcs with
  | nil =>
    intro ts0 ts _ h h0
    cases h
    exact h0
  | cons nv rest ih =>
    intro ts0 ts hsvcs h h0
    rw [foldE_cons] at h
    obtain ⟨ts1, h1, h2⟩ := exBind_ok_inv h
    refine ih ts1 ts (fun x hx => hsvcs x (List.mem_cons_of_mem _ hx)) h2 ?_
    rcases deploymentsStep_ok_inv h1 with heq | ⟨cc, vols, pod, hs2c, r, heq, hrv, hrc⟩
    · subst heq
      exact h0
    · subst heq
      intro t ht
      rcases List.mem_append.mp ht with hl | hr
      · exact h0 t hl
      · rw [List.mem_singleton] at hr
        subst hr
        rw [hrc]
        intro c' hc'
        rw [List.mem_singleton] at hc'
        subst hc'
        exact (s2c_parts hs2c).2 (hsvcs nv (List.mem_cons_self _ _))

/-- C10 (amended): (a) any service carrying a `volumes` directive with a
non-empty declaration list makes the workload generator raise before
emitting anything — the module-level `_kube_volumes(self, docker_volumes)`
is invoked with a single argument, a `TypeError` (in fact any value for
the directive, even an empty list, raises at the call itself); and (b)
whenever the generator does succeed, no emitted workload resource
carries pod-level volumes, and no container carries a `volumeMounts`
entry unless the service config itself smuggled one in under a literal
`volumeMounts` key through the pass-through escape hatch. -/
theorem c10_amended :
    (∀ (d : Deployment) (name : String) (svc : Svc) (vs : List PyVal),
        (name, svc) ∈ d.svcs → dictGet svc "volumes" = some (.list vs) → vs ≠ [] →
        ∃ e, Deployment.deployments d = .error e)
    ∧ (∀ (d : Deployment) (ts : List DeploymentResource),
        Deployment.deployments d = .ok ts →
        (∀ t ∈ ts, t.volumes = [])
        ∧ ((∀ nv ∈ d.svcs, dictGet nv.2 "volumeMounts" = none) →
            ∀ t ∈ ts, ∀ cc ∈ t.containers, dictGet cc "volumeMounts" = none)) := by
  constructor
  · intro d name svc vs hmem hdir _
    have hitem : ("volumes", PyVal.list vs) ∈ svc := dictGet_mem hdir
    have hs2c : ∃ e, service_to_container name svc = .error e :=
      s2c_bad hitem (fun cv => ⟨.typeError, rfl⟩)
    obtain ⟨e, he⟩ := foldE_mem_error hmem (deploymentsStep_bad hs2c) []
    exact ⟨e, by rw [Deployment.deployments]; exact he⟩
  · intro d ts h
    rw [Deployment.deployments] at h
    refine ⟨deployments_fold_vols d.svcs [] ts h (fun t ht => absurd ht (List.not_mem_nil t)),
            fun hnovm => deployments_fold_vm d.svcs [] ts hnovm h
              (fun t ht => absurd ht (List.not_mem_nil t))⟩

/-- The counterexample input: a service whose config passes a literal
`volumeMounts` key through the escape hatch. -/
def dPassThrough : Deployment :=
  { svcs := [("web", [("volumeMounts", .list [.str "x"])])],
    projectName := "p", vols := [] }

/-- The container the pass-through produces. -/
def contPassThrough : Container :=
  [("name", .str "web"), ("securityContext", .dict []), ("state", .str "present"),
   ("volumeMounts", .list [.str "x"])]

/-- C10 (counterexample): the generator SUCCEEDS on `dPassThrough` and
the emitted workload resource's container DOES carry a `volumeMounts`
entry (copied verbatim by the `container[key] = value` escape hatch) —
so "no emitted workload resource ever carries volumeMounts" is false as
stated. -/
theorem c10_counterexample :
    Deployment.deployments dPassThrough
      = .ok [{ apiVersion := "extensions/v1beta1", kind := "Deployment", name := "web",
               labels := [("app", "p"), ("service", "web")], ns := "p",
               containers := [contPassThrough], templateReplicas := 1,
               strategyType := "RollingUpate", volumes := [], replicas := none }]
    ∧ dictGet contPassThrough "volumeMounts" = some (.list [.str "x"]) :=
  ⟨rfl, rfl⟩

/-- A service with a non-empty `volumes` declaration list. -/
def dVolumesDirective : Deployment :=
  { svcs := [("web", [("volumes", .list [.str "/data"])])],
    projectName := "p", vols := [] }

/-- A single service with no directives at all. -/
def dPlain : Deployment := { svcs := [("web", ([] : Svc))], projectName := "p", vols := [] }

/-- The resource generated for `dPlain`'s service. -/
def deplPlain : DeploymentResource :=
  { apiVersion := "extensions/v1beta1", kind := "Deployment", name := "web",
    labels := [("app", "p"), ("service", "web")], ns := "p",
    containers := [[("name", .str "web"), ("securityContext", .dict []),
                    ("state", .str "present")]],
    templateReplicas := 1, strategyType := "RollingUpate", volumes := [],
    replicas := none }

/-- C10 (witness): part (a) discharged on a concrete service with a
non-empty `volumes` list, part (b) on a concrete succeeding input. -/
theorem c10_witness :
    (∃ e, Deployment.deployments dVolumesDirective = .error e)
    ∧ (∀ t ∈ [deplPlain], t.volumes = [])
    ∧ ((∀ nv ∈ dPlain.svcs, dictGet nv.2 "volumeMounts" = none) →
        ∀ t ∈ [deplPlain], ∀ cc ∈ t.containers, dictGet cc "volumeMounts" = none) :=
  ⟨c10_amended.1 dVolumesDirective "web" _ [.str "/data"] (List.mem_singleton.mpr rfl) rfl
      (by simp),
   (c10_amended.2 dPlain [deplPlain] rfl).1,
   (c10_amended.2 dPlain [deplPlain] rfl).2⟩
